import Mathlib

/-!
# Smart-Agri Leafy Shield — actuator safety engine of `src/main.cpp`

A shallow embedding of the firmware's control core: the global variables become
one record `DeviceState`, every `void f()` that mutates globals becomes a function
`DeviceState → DeviceState`, and everything the firmware obtains from hardware or
from the network (the millisecond counter, sensor samples, backend reads) is an
explicit argument.

Conventions of the embedding

* `unsigned long` is 32 bits wide on the ESP32: values are `Nat`, and every
  subtraction or addition the source performs on them is taken modulo `2^32`
  (`sub32`, `add32`).
* `int` is a 32-bit two's-complement value: `Int`, with `wrap32` applied where the
  source subtracts calibration anchors.
* `float` / `double` are `Option ℚ`: `none` is NaN, `some q` is the finite value
  `q`. Arithmetic on finite values is exact, with one exception: the difference
  `float improvement = current - baseline` that the stop branch of `controlPump`
  compares with `5.0` is rounded to single precision as the hardware rounds it
  (`fsub`, `roundF32`), because the comparison is decided by the rounded value.
* `millis()` is an argument `now`: one reading per call of a control function.
* A digital output is a `Bool` (`true` = HIGH).
* `Serial` output and backend writes do not feed back into the control state and
  are left out, except that `controlPumpTrace` reports which message branch of
  `controlPump` was taken.
-/

namespace LeafyShield

/-! ## Machine arithmetic -/

/-- Number of values of a 32-bit word. -/
def WORD : Nat := 4294967296

/-- Subtraction of two `unsigned long` values (wraps modulo `2^32`). -/
def sub32 (a b : Nat) : Nat := (a + (WORD - b % WORD)) % WORD

/-- Addition of two `unsigned long` values (wraps modulo `2^32`). -/
def add32 (a b : Nat) : Nat := (a + b) % WORD

/-- Reading of the `millis()` counter after `t` milliseconds of uptime. -/
def millis (t : Nat) : Nat := t % WORD

/-- Result of an `int` operation whose exact value is `x` (two's complement, 32 bits). -/
def wrap32 (x : Int) : Int := (x + 2147483648) % 4294967296 - 2147483648

/-- A C floating-point value: `none` is NaN, `some q` the finite value `q`. -/
abbrev Flt := Option ℚ

/-- The C comparison `x < (float) n` of a float with an `int`; false on NaN. -/
def Flt.ltInt (x : Flt) (n : Int) : Bool :=
  match x with
  | none => false
  | some v => decide (v < (n : ℚ))

/-- The C comparison `x > y` of two floats; false when either is NaN. -/
def Flt.gt (x y : Flt) : Bool :=
  match x, y with
  | some a, some b => decide (a > b)
  | _, _ => false

/-- The C comparison `x > (float) n` of a float with an `int`; false on NaN. -/
def Flt.gtInt (x : Flt) (n : Int) : Bool :=
  match x with
  | none => false
  | some v => decide (v > (n : ℚ))

/-! ## Single-precision rounding -/

/-- Nearest integer of a rational, a tie going to the even neighbour. -/
def roundHalfEven (x : ℚ) : ℤ :=
  if x - ⌊x⌋ < 1 / 2 then ⌊x⌋
  else if 1 / 2 < x - ⌊x⌋ then ⌊x⌋ + 1
  else if ⌊x⌋ % 2 = 0 then ⌊x⌋ else ⌊x⌋ + 1

/-- The `float` (IEEE 754 binary32) nearest to the exact value `q`, rounding to nearest
with ties to even: a value in the binade `2^e ≤ |q| < 2^(e+1)` is rounded to a multiple
of `2^(e-23)` (24 significant bits), and below `2^-126` the spacing stays `2^-149`.
Overflow to infinity (magnitudes from `2^128` on) is not represented; the values
subtracted in this program are percentages. -/
def roundF32 (q : ℚ) : ℚ :=
  if q = 0 then 0
  else (roundHalfEven (q / 2 ^ (max (Int.log 2 |q|) (-126) - 23)) : ℚ)
    * 2 ^ (max (Int.log 2 |q|) (-126) - 23)

/-- The `float` subtraction `x - y` of two finite `float` values: the exact difference
rounded to single precision. -/
def fsub (x y : ℚ) : ℚ := roundF32 (x - y)

/-- The rational `q` is a `float` value: rounding to single precision leaves it as it is. -/
def isFloat (q : ℚ) : Prop := roundF32 q = q

instance (q : ℚ) : Decidable (isFloat q) := inferInstanceAs (Decidable (roundF32 q = q))

/-! ## Constants (`#define`s and `const` globals) -/

def SHADE_MOTOR_DURATION : Nat := 10000
def PUMP_REST_PERIOD : Nat := 10000
def IRRIGATION_DURATION : Nat := 30000
def MISTING_DURATION : Nat := 15000
def EXTENDED_COOLDOWN : Nat := 1800000
def TANK_HEIGHT : ℚ := 45

/-! ## Device state (the globals of `main.cpp`) -/

/-- The mutable globals of the firmware that the control core reads or writes,
together with the levels of the four actuator outputs. -/
structure DeviceState where
  /-- Calibration anchor `int SOIL_RAW_AIR` (raw reading in dry air). -/
  SOIL_RAW_AIR : Int
  /-- Calibration anchor `int SOIL_RAW_WATER` (raw reading in water). -/
  SOIL_RAW_WATER : Int
  selectedPlantName : String
  plantMinTemperature : Flt
  plantMaxTemperature : Flt
  plantMinSoilMoisture : Int
  plantMaxSoilMoisture : Int
  plantMinHumidity : Int
  plantMaxHumidity : Int
  plantMinLightIntensity : Int
  plantMaxLightIntensity : Int
  plantSettingsLoaded : Bool
  waterLevelLowThreshold : Int
  temperatureFiltered : Flt
  humidityFiltered : Flt
  currentTemperature : Flt
  currentHumidity : Flt
  tempSensorConnected : Bool
  humiditySensorConnected : Bool
  soilPercent : Flt
  analog_soil_sensor_is_connected : Bool
  currentSoilRaw : Int
  currentLightLevel : Flt
  bh1750_ok : Bool
  currentWaterDistance : Flt
  currentWaterLevel : Flt
  currentWaterPercent : Int
  waterLevelSensorConnected : Bool
  firebase_ready : Bool
  lastUpdate : Nat
  lastHeartbeat : Nat
  lastWiFiCheck : Nat
  currentMode : String
  pumpMode : String
  shadeMotorStartTime : Nat
  isShadeMoving : Bool
  shadeDeployed : Bool
  currentPumpMode : String
  pumpStartTime : Nat
  isPumpRunning : Bool
  lastPumpStopTime : Nat
  totalIrrigationRuntime : Nat
  irrigationCycleCount : Int
  totalMistingRuntime : Nat
  mistingCycleCount : Int
  lastSoilBeforeIrrigation : Flt
  lastHumidityBeforeMisting : Flt
  extendedCooldownUntil : Nat
  /-- The `static String lastTimestamp` of `checkCommands`. -/
  lastTimestamp : String
  /-- The `bool wifiReconnecting` flag. -/
  wifiReconnecting : Bool
  /-- The `int consecutiveFailures` counter of `checkWiFiConnection`. -/
  consecutiveFailures : Int
  /-- Level of output `SHADE_MOTOR_PIN_1` (`true` is HIGH). -/
  shadePin1 : Bool
  /-- Level of output `SHADE_MOTOR_PIN_2` (`true` is HIGH). -/
  shadePin2 : Bool
  /-- Level of output `PUMP_PIN_1`, the irrigation pump (`true` is HIGH). -/
  pumpPin1 : Bool
  /-- Level of output `PUMP_PIN_2`, the misting pump (`true` is HIGH). -/
  pumpPin2 : Bool
  deriving DecidableEq

/-- The globals as initialised at program start, with the four actuator outputs
LOW as `setup()` drives them, before any network initialisation. -/
def boot : DeviceState where
  SOIL_RAW_AIR := 3000
  SOIL_RAW_WATER := 1300
  selectedPlantName := "Pechay"
  plantMinTemperature := some 15
  plantMaxTemperature := some 30
  plantMinSoilMoisture := 40
  plantMaxSoilMoisture := 80
  plantMinHumidity := 60
  plantMaxHumidity := 80
  plantMinLightIntensity := 800
  plantMaxLightIntensity := 1500
  plantSettingsLoaded := false
  waterLevelLowThreshold := 20
  temperatureFiltered := none
  humidityFiltered := none
  currentTemperature := none
  currentHumidity := none
  tempSensorConnected := false
  humiditySensorConnected := false
  soilPercent := none
  analog_soil_sensor_is_connected := false
  currentSoilRaw := 0
  currentLightLevel := none
  bh1750_ok := false
  currentWaterDistance := none
  currentWaterLevel := none
  currentWaterPercent := 0
  waterLevelSensorConnected := false
  firebase_ready := false
  lastUpdate := 0
  lastHeartbeat := 0
  lastWiFiCheck := 0
  currentMode := "auto"
  pumpMode := "soil"
  shadeMotorStartTime := 0
  isShadeMoving := false
  shadeDeployed := false
  currentPumpMode := "none"
  pumpStartTime := 0
  isPumpRunning := false
  lastPumpStopTime := 0
  totalIrrigationRuntime := 0
  irrigationCycleCount := 0
  totalMistingRuntime := 0
  mistingCycleCount := 0
  lastSoilBeforeIrrigation := none
  lastHumidityBeforeMisting := none
  extendedCooldownUntil := 0
  lastTimestamp := ""
  wifiReconnecting := false
  consecutiveFailures := 0
  shadePin1 := false
  shadePin2 := false
  pumpPin1 := false
  pumpPin2 := false

/-! ## Pump actuator -/

/-- Which message branch of `controlPump` a call takes. -/
inductive PumpOutcome
  /-- Start rejected with "WATER LOW ... Cannot start!". -/
  | waterLow
  /-- Start rejected with "Pump already running in ... mode". -/
  | busy
  /-- Start rejected with "Pump cooling down...". -/
  | resting
  /-- Start rejected with "Extended cooldown: ... min remaining". -/
  | extendedCooldown
  /-- The start branch ran to its end ("IRRIGATION STARTED" / "MISTING STARTED"). -/
  | started
  /-- Stop on a pump that is not running: silent return. -/
  | notRunning
  /-- The stop branch ran to its end. -/
  | stopped
  /-- The action is neither `"start"` nor `"stop"`: nothing happens. -/
  | ignored
  deriving DecidableEq, Repr

/-- The effectiveness check of the stop branch: the new `extendedCooldownUntil`
given the baseline captured before the cycle and the current value. The source
computes `float improvement = current - baseline` and tests `improvement < 5.0`; the
conversion of the `float` to `double` for the comparison is exact. -/
def cooldownAfter (baseline current : Flt) (now deadline : Nat) : Nat :=
  match baseline, current with
  | some b, some v => if fsub v b < 5 then add32 now EXTENDED_COOLDOWN else deadline
  | _, _ => deadline

/-- The source's `controlPump(mode, action)` at counter reading `now`, together with
the message branch taken. -/
def controlPumpTrace (mode action : String) (now : Nat) (s : DeviceState) :
    PumpOutcome × DeviceState :=
  if action = "start" then
    if s.currentWaterPercent < s.waterLevelLowThreshold then (.waterLow, s)
    else if s.isPumpRunning then (.busy, s)
    else if sub32 now s.lastPumpStopTime < PUMP_REST_PERIOD then (.resting, s)
    else if now < s.extendedCooldownUntil then (.extendedCooldown, s)
    else
      let s1 := { s with currentPumpMode := mode, isPumpRunning := true, pumpStartTime := now }
      if mode = "irrigation" then (.started, { s1 with pumpPin1 := true })
      else if mode = "misting" then (.started, { s1 with pumpPin2 := true })
      else (.started, s1)
  else if action = "stop" then
    if !s.isPumpRunning then (.notRunning, s)
    else
      let s1 := { s with pumpPin1 := false, pumpPin2 := false }
      let runtime := sub32 now s1.pumpStartTime
      let s2 :=
        if s1.currentPumpMode = "irrigation" then
          { s1 with
            totalIrrigationRuntime := add32 s1.totalIrrigationRuntime (runtime / 1000)
            irrigationCycleCount := s1.irrigationCycleCount + 1
            extendedCooldownUntil :=
              cooldownAfter s1.lastSoilBeforeIrrigation s1.soilPercent now s1.extendedCooldownUntil }
        else if s1.currentPumpMode = "misting" then
          { s1 with
            totalMistingRuntime := add32 s1.totalMistingRuntime (runtime / 1000)
            mistingCycleCount := s1.mistingCycleCount + 1
            extendedCooldownUntil :=
              cooldownAfter s1.lastHumidityBeforeMisting s1.currentHumidity now s1.extendedCooldownUntil }
        else s1
      (.stopped, { s2 with isPumpRunning := false, currentPumpMode := "none", lastPumpStopTime := now })
  else (.ignored, s)

/-- The source's `controlPump(mode, action)` at counter reading `now`. -/
def controlPump (mode action : String) (now : Nat) (s : DeviceState) : DeviceState :=
  (controlPumpTrace mode action now s).2

/-- The source's `autoControlIrrigation()` at counter reading `now`. -/
def autoControlIrrigation (now : Nat) (s : DeviceState) : DeviceState :=
  if s.currentMode ≠ "auto" then s
  else if s.pumpMode ≠ "soil" then s
  else if !s.analog_soil_sensor_is_connected then s
  else if s.isPumpRunning then s
  else if s.currentWaterPercent < s.waterLevelLowThreshold then s
  else if now < s.extendedCooldownUntil then s
  else if sub32 now s.lastPumpStopTime < PUMP_REST_PERIOD then s
  else if s.soilPercent.ltInt s.plantMinSoilMoisture then
    controlPump "irrigation" "start" now { s with lastSoilBeforeIrrigation := s.soilPercent }
  else s

/-- The source's `autoControlMisting()` at counter reading `now`. -/
def autoControlMisting (now : Nat) (s : DeviceState) : DeviceState :=
  if s.currentMode ≠ "auto" then s
  else if s.pumpMode ≠ "humidity" then s
  else if !s.humiditySensorConnected then s
  else if s.isPumpRunning then s
  else if s.currentWaterPercent < s.waterLevelLowThreshold then s
  else if now < s.extendedCooldownUntil then s
  else if sub32 now s.lastPumpStopTime < PUMP_REST_PERIOD then s
  else if s.currentHumidity.ltInt s.plantMinHumidity then
    controlPump "misting" "start" now { s with lastHumidityBeforeMisting := s.currentHumidity }
  else s

/-- The forced-stop check at the end of `loop()` (the `if (isPumpRunning)` block):
`currentMillis` is the reading taken at the top of the iteration, `now` the reading
`controlPump` takes when it is called. -/
def loop_pumpCheck (currentMillis now : Nat) (s : DeviceState) : DeviceState :=
  if s.isPumpRunning then
    let runtime := sub32 currentMillis s.pumpStartTime
    let maxDuration := if s.currentPumpMode = "irrigation" then IRRIGATION_DURATION else MISTING_DURATION
    if runtime ≥ maxDuration then controlPump s.currentPumpMode "stop" now s else s
  else s

/-! ## Shade actuator -/

/-- The source's `controlShade(action)` at counter reading `now`. -/
def controlShade (action : String) (now : Nat) (s : DeviceState) : DeviceState :=
  if s.isShadeMoving then s
  else if action = "deploy" ∧ s.shadeDeployed = false then
    { s with shadePin1 := true, shadePin2 := false, isShadeMoving := true, shadeMotorStartTime := now }
  else if action = "retract" ∧ s.shadeDeployed = true then
    { s with shadePin1 := false, shadePin2 := true, isShadeMoving := true, shadeMotorStartTime := now }
  else s

/-- The source's `stopShadeMotor()` at counter reading `now`. -/
def stopShadeMotor (now : Nat) (s : DeviceState) : DeviceState :=
  if !s.isShadeMoving then s
  else if sub32 now s.shadeMotorStartTime ≥ SHADE_MOTOR_DURATION then
    { s with shadePin1 := false, shadePin2 := false, isShadeMoving := false,
             shadeDeployed := !s.shadeDeployed }
  else s

/-- The source's `autoControlShade()` at counter reading `now`. -/
def autoControlShade (now : Nat) (s : DeviceState) : DeviceState :=
  if s.currentMode ≠ "auto" then s
  else if !s.tempSensorConnected || !s.bh1750_ok then s
  else
    let tempHigh := s.currentTemperature.gt s.plantMaxTemperature
    let lightHigh := s.currentLightLevel.gtInt s.plantMaxLightIntensity
    if (tempHigh || lightHigh) && !s.shadeDeployed && !s.isShadeMoving then
      controlShade "deploy" now s
    else if !tempHigh && !lightHigh && s.shadeDeployed && !s.isShadeMoving then
      controlShade "retract" now s
    else s

/-! ## Calibration and sensor acquisition -/

/-- Modelled from the spec: the Arduino macro `constrain(amt, low, high)` is not
defined in this repository; the spec says the output is clamped to `[low, high]`.
As in the macro `amt < low ? low : (amt > high ? high : amt)`, NaN passes through. -/
def constrain (amt : Flt) (low high : ℚ) : Flt :=
  match amt with
  | none => none
  | some v => if v < low then some low else if v > high then some high else some v

/-- Modelled from the spec: the Arduino macro `constrain` at type `int`. -/
def constrainInt (amt low high : Int) : Int :=
  if amt < low then low else if amt > high then high else amt

/-- The source's `soilPercentFromRaw(raw)`: the returned percentage and the state with
the anchors possibly swapped. The two `int` subtractions are taken in 32-bit two's
complement; a zero denominator occurs only for equal anchors, where the numerator is
zero as well and the quotient is NaN. -/
def soilPercentFromRaw (raw : Int) (s : DeviceState) : Flt × DeviceState :=
  let s1 :=
    if s.SOIL_RAW_WATER > s.SOIL_RAW_AIR then
      { s with SOIL_RAW_WATER := s.SOIL_RAW_AIR, SOIL_RAW_AIR := s.SOIL_RAW_WATER }
    else s
  let raw1 := if raw < s1.SOIL_RAW_WATER then s1.SOIL_RAW_WATER else raw
  let raw2 := if raw1 > s1.SOIL_RAW_AIR then s1.SOIL_RAW_AIR else raw1
  let num : Int := wrap32 (s1.SOIL_RAW_AIR - raw2)
  let den : Int := wrap32 (s1.SOIL_RAW_AIR - s1.SOIL_RAW_WATER)
  let pct : Flt := if den = 0 then none else some (100 * (num : ℚ) / (den : ℚ))
  (constrain pct 0 100, s1)

/-- The source's `readSoilRawAveraged(samples)`: `reads` are the `samples` successive
results of `analogRead(SOIL_PIN)`; C integer division truncates. -/
def readSoilRawAveraged (reads : List Int) : Int :=
  Int.tdiv reads.sum (reads.length : Int)

/-- The smoothing weight `float alpha = 0.5`. -/
def alpha : ℚ := 1 / 2

/-- One channel of the exponential filter in `readXYMD02Sensor`. -/
def emaStep (filtered : Flt) (sample : ℚ) : Flt :=
  match filtered with
  | none => some sample
  | some p => some (alpha * sample + (1 - alpha) * p)

/-- The source's `readXYMD02Sensor()`: `resp` is `none` when the bus read fails and
`some (rawHumidity, rawTemperature)` (two 16-bit registers) when it succeeds. -/
def readXYMD02Sensor (resp : Option (Nat × Nat)) (s : DeviceState) : DeviceState :=
  match resp with
  | some (rawHumidity, rawTemperature) =>
    let newTemp : ℚ := (rawTemperature : ℚ) / 10
    let newHumidity : ℚ := (rawHumidity : ℚ) / 10
    let s1 :=
      if newTemp > -40 ∧ newTemp < 80 then
        let f := emaStep s.temperatureFiltered newTemp
        { s with temperatureFiltered := f, currentTemperature := f, tempSensorConnected := true }
      else s
    if newHumidity ≥ 0 ∧ newHumidity ≤ 100 then
      let f := emaStep s1.humidityFiltered newHumidity
      { s1 with humidityFiltered := f, currentHumidity := f, humiditySensorConnected := true }
    else s1
  | none => { s with tempSensorConnected := false, humiditySensorConnected := false }

/-- Conversion of a finite floating-point value to `int` (truncation toward zero). -/
def truncToInt (q : ℚ) : Int := if q < 0 then ⌈q⌉ else ⌊q⌋

/-- The source's `readWaterLevelSensor()`: `duration` is the echo pulse length returned
by `pulseIn` (0 on timeout). -/
def readWaterLevelSensor (duration : Int) (s : DeviceState) : DeviceState :=
  if duration > 0 then
    let distance : ℚ := (duration : ℚ) * (34 / 1000) / 2
    if distance > 0 ∧ distance < 200 then
      let level : ℚ := TANK_HEIGHT - distance
      { s with
        currentWaterDistance := some distance
        currentWaterLevel := some level
        currentWaterPercent := constrainInt (truncToInt (level / TANK_HEIGHT * 100)) 0 100
        waterLevelSensorConnected := true }
    else { s with waterLevelSensorConnected := false }
  else { s with waterLevelSensorConnected := false }

/-- What the hardware delivers during one run of `readAndSendSensorData`. -/
structure SensorInputs where
  /-- The successive `analogRead(SOIL_PIN)` results. -/
  soilReads : List Int
  /-- The result of `lightMeter.readLightLevel()`. -/
  light : Flt
  /-- The temperature/humidity bus transaction. -/
  xymd : Option (Nat × Nat)
  /-- The ultrasonic echo pulse length. -/
  echo : Int

/-- The source's `readAndSendSensorData()`, without the NPK channel and the advisors
(they touch no variable of `DeviceState`) and without the backend writes. -/
def readAndSendSensorData (i : SensorInputs) (s : DeviceState) : DeviceState :=
  if !s.firebase_ready then s
  else
    let raw := readSoilRawAveraged i.soilReads
    let (pct, s1) := soilPercentFromRaw raw { s with currentSoilRaw := raw }
    let s2 := { s1 with soilPercent := pct, analog_soil_sensor_is_connected := decide (raw > 0) }
    let s3 := if s2.bh1750_ok then { s2 with currentLightLevel := i.light } else s2
    readWaterLevelSensor i.echo (readXYMD02Sensor i.xymd s3)

/-! ## Backend commands -/

/-- The values `fetchPlantSettings` reads from the backend (`none`: the read failed). -/
structure PlantFetch where
  selected_plant : Option String
  min_temperature : Option Flt
  max_temperature : Option Flt
  min_soil_moisture : Option Int
  max_soil_moisture : Option Int
  min_humidity : Option Int
  max_humidity : Option Int
  min_light_intensity : Option Int
  max_light_intensity : Option Int

/-- The source's `fetchPlantSettings()`: every successful read overwrites its own
variable, a failed read leaves it; the assignments touch pairwise different variables
and are written as one record update. -/
def fetchPlantSettings (f : PlantFetch) (s : DeviceState) : DeviceState :=
  if !s.firebase_ready then s
  else
    { s with
      selectedPlantName :=
        match f.selected_plant with
        | some newPlant =>
          if newPlant.length > 0 ∧ newPlant ≠ s.selectedPlantName then newPlant
          else s.selectedPlantName
        | none => s.selectedPlantName
      plantMinTemperature := f.min_temperature.getD s.plantMinTemperature
      plantMaxTemperature := f.max_temperature.getD s.plantMaxTemperature
      plantMinSoilMoisture := f.min_soil_moisture.getD s.plantMinSoilMoisture
      plantMaxSoilMoisture := f.max_soil_moisture.getD s.plantMaxSoilMoisture
      plantMinHumidity := f.min_humidity.getD s.plantMinHumidity
      plantMaxHumidity := f.max_humidity.getD s.plantMaxHumidity
      plantMinLightIntensity := f.min_light_intensity.getD s.plantMinLightIntensity
      plantMaxLightIntensity := f.max_light_intensity.getD s.plantMaxLightIntensity
      plantSettingsLoaded := true }

/-- What the backend returns to the reads of one `checkCommands` run (`none`: the
read failed or the key is absent). -/
structure Backend where
  selected_plant : Option String
  /-- The reads of `fetchPlantSettings`, should it be called. -/
  plant : PlantFetch
  /-- Key `commands/mode`. -/
  mode : Option String
  /-- Key `commands/pump_mode`. -/
  pump_mode : Option String
  /-- Key `commands/pump_command`. -/
  pump_command : Option String
  /-- Key `commands/shade_command`. -/
  shade_command : Option String
  /-- Key `commands/system_command/command`. -/
  system_command_object : Option String
  /-- Key `commands/system_command/timestamp`. -/
  system_command_timestamp : Option String
  /-- Key `commands/system_command` read as a plain string. -/
  system_command_string : Option String

/-- What `checkCommands` does with the system command it reads. -/
inductive SystemAction
  /-- No system command was read. -/
  | nothing
  /-- The timestamp equals the last processed one: "Skipping duplicate system command". -/
  | skippedDuplicate
  /-- A new timestamp was recorded but the command is neither known value. -/
  | recorded
  /-- The device restarts (`ESP.restart()`). -/
  | restart
  /-- The WiFi credentials are cleared and the device restarts. -/
  | factoryReset
  deriving DecidableEq, Repr

/-- The pump-command block of `checkCommands`. -/
def pumpCommand (cmd : String) (now : Nat) (s : DeviceState) : DeviceState :=
  if cmd = "irrigation_start" then controlPump "irrigation" "start" now s
  else if cmd = "irrigation_stop" then controlPump "irrigation" "stop" now s
  else if cmd = "misting_start" then controlPump "misting" "start" now s
  else if cmd = "misting_stop" then controlPump "misting" "stop" now s
  else s

/-- The system-command block of `checkCommands`. -/
def systemCommand (b : Backend) (s : DeviceState) : SystemAction × DeviceState :=
  match b.system_command_object with
  | some cmd =>
    match b.system_command_timestamp with
    | some currentTimestamp =>
      if currentTimestamp ≠ s.lastTimestamp then
        let s1 := { s with lastTimestamp := currentTimestamp }
        if cmd = "restart" then (.restart, s1)
        else if cmd = "factory_reset" then (.factoryReset, s1)
        else (.recorded, s1)
      else (.skippedDuplicate, s)
    | none => (.nothing, s)
  | none =>
    match b.system_command_string with
    | some cmd =>
      if cmd = "restart" then (.restart, s)
      else if cmd = "factory_reset" then (.factoryReset, s)
      else (.nothing, s)
    | none => (.nothing, s)

/-- The plant-selection block of `checkCommands`. -/
def plantCommand (b : Backend) (s : DeviceState) : DeviceState :=
  match b.selected_plant with
  | some newPlant =>
    if newPlant.length > 0 ∧ newPlant ≠ s.selectedPlantName then fetchPlantSettings b.plant s
    else s
  | none => s

/-- The operating-mode block of `checkCommands` (key `commands/mode`). -/
def modeCommand (b : Backend) (s : DeviceState) : DeviceState :=
  match b.mode with
  | some mode =>
    if (mode = "auto" ∨ mode = "manual") ∧ mode ≠ s.currentMode then { s with currentMode := mode }
    else s
  | none => s

/-- The target-selector block of `checkCommands` (key `commands/pump_mode`). -/
def pumpModeCommand (b : Backend) (s : DeviceState) : DeviceState :=
  match b.pump_mode with
  | some mode =>
    if (mode = "soil" ∨ mode = "humidity") ∧ mode ≠ s.pumpMode then { s with pumpMode := mode }
    else s
  | none => s

/-- The source's `checkCommands()`, its six blocks in order: `tPump` and `tShade` are the
counter readings at the pump command and at the shade command. -/
def checkCommands (b : Backend) (tPump tShade : Nat) (s : DeviceState) :
    SystemAction × DeviceState :=
  if !s.firebase_ready then (.nothing, s)
  else
    let s := pumpModeCommand b (modeCommand b (plantCommand b s))
    let s := match b.pump_command with | some cmd => pumpCommand cmd tPump s | none => s
    let s := match b.shade_command with | some cmd => controlShade cmd tShade s | none => s
    systemCommand b s

/-! ## The supervisory loop -/

def UPDATE_INTERVAL : Nat := 5000
def HEARTBEAT_INTERVAL : Nat := 30000
def WIFI_CHECK_INTERVAL : Nat := 5000
def MAX_CONSECUTIVE_FAILURES : Int := 3

/-- The source's `checkWiFiConnection()`; `none` when it restarts the device. -/
def checkWiFiConnection (connected : Bool) (s : DeviceState) : Option DeviceState :=
  if !connected then
    let s1 := { s with consecutiveFailures := s.consecutiveFailures + 1 }
    if s1.consecutiveFailures ≥ MAX_CONSECUTIVE_FAILURES then none
    else some { s1 with wifiReconnecting := true }
  else
    some { s with wifiReconnecting := false, consecutiveFailures := 0 }

/-- The source's `initFirebase()` as far as the globals go: `ready` is the final
`Firebase.ready()`. -/
def initFirebase (ready : Bool) (f : PlantFetch) (s : DeviceState) : DeviceState :=
  let s1 := { s with firebase_ready := ready }
  if ready then fetchPlantSettings f s1 else s1

/-- Everything one iteration of `loop()` takes from outside. -/
structure LoopInputs where
  /-- The reading `currentMillis = millis()` at the top of the iteration. -/
  currentMillis : Nat
  /-- WiFi status seen by `checkWiFiConnection`. -/
  wifiAtCheck : Bool
  /-- WiFi status seen by the reconnection test. -/
  wifiAtInit : Bool
  /-- Outcome of `initFirebase`, should it run. -/
  firebaseReady : Bool
  firebasePlant : PlantFetch
  sensors : SensorInputs
  backend : Backend
  /-- Counter readings at the calls made later in the iteration. -/
  tPumpCommand : Nat
  tShadeCommand : Nat
  tAutoShade : Nat
  tAutoIrrigation : Nat
  tAutoMisting : Nat
  tStopShade : Nat
  tPumpCheck : Nat

/-- The connectivity block at the top of `loop()`: the periodic WiFi check; `none` when
it restarts the device. -/
def loop_wifi (i : LoopInputs) (s : DeviceState) : Option DeviceState :=
  if sub32 i.currentMillis s.lastWiFiCheck ≥ WIFI_CHECK_INTERVAL then
    (checkWiFiConnection i.wifiAtCheck s).map (fun x => { x with lastWiFiCheck := i.currentMillis })
  else some s

/-- The blocks of `loop()` between the WiFi check and `checkCommands`: backend
reconnection, periodic sensor acquisition, heartbeat. -/
def loop_acquire (i : LoopInputs) (s : DeviceState) : DeviceState :=
  let s := if !s.firebase_ready && i.wifiAtInit then initFirebase i.firebaseReady i.firebasePlant s else s
  let s :=
    if sub32 i.currentMillis s.lastUpdate ≥ UPDATE_INTERVAL then
      { readAndSendSensorData i.sensors s with lastUpdate := i.currentMillis }
    else s
  if sub32 i.currentMillis s.lastHeartbeat ≥ HEARTBEAT_INTERVAL then
    { s with lastHeartbeat := i.currentMillis }
  else s

/-- The blocks of `loop()` between `checkCommands` and the forced-stop check: the three
automatic policies in auto mode, then `stopShadeMotor`. -/
def loop_policy (i : LoopInputs) (s : DeviceState) : DeviceState :=
  let s :=
    if s.currentMode = "auto" then
      autoControlMisting i.tAutoMisting
        (autoControlIrrigation i.tAutoIrrigation (autoControlShade i.tAutoShade s))
    else s
  stopShadeMotor i.tStopShade s

/-- One iteration of `loop()` up to, and not including, the forced-stop check;
`none` when the device restarts inside the iteration. -/
def loop_upToPumpCheck (i : LoopInputs) (s : DeviceState) : Option DeviceState :=
  match loop_wifi i s with
  | none => none
  | some s1 =>
    match checkCommands i.backend i.tPumpCommand i.tShadeCommand (loop_acquire i s1) with
    | (.restart, _) => none
    | (.factoryReset, _) => none
    | (_, s2) => some (loop_policy i s2)

/-- One iteration of the source's `loop()`; `none` when the device restarts inside it. -/
def loop (i : LoopInputs) (s : DeviceState) : Option DeviceState :=
  (loop_upToPumpCheck i s).map (loop_pumpCheck i.currentMillis i.tPumpCheck)

/-! ## Runs of the pump actuator -/

/-- The state `e` with the variables and outputs that only `controlPump` writes taken
from `s`: an arbitrary change of everything else (sensor values, thresholds, modes,
baselines, shade state) between two pump calls. -/
def withPumpOf (s e : DeviceState) : DeviceState :=
  { e with
    currentPumpMode := s.currentPumpMode
    pumpStartTime := s.pumpStartTime
    isPumpRunning := s.isPumpRunning
    lastPumpStopTime := s.lastPumpStopTime
    totalIrrigationRuntime := s.totalIrrigationRuntime
    irrigationCycleCount := s.irrigationCycleCount
    totalMistingRuntime := s.totalMistingRuntime
    mistingCycleCount := s.mistingCycleCount
    extendedCooldownUntil := s.extendedCooldownUntil
    pumpPin1 := s.pumpPin1
    pumpPin2 := s.pumpPin2 }

/-- One step of a pump run: a `controlPump` call at some counter reading, or a change
of the surroundings. -/
inductive PumpEvent
  /-- The call `controlPump(mode, action)` at reading `now`. -/
  | call (mode action : String) (now : Nat)
  /-- Everything but the pump variables changes to what it is in `e`. -/
  | env (e : DeviceState)

/-- Effect of one event. -/
def PumpEvent.apply : PumpEvent → DeviceState → DeviceState
  | .call mode action now, s => controlPump mode action now s
  | .env e, s => withPumpOf s e

/-- A call event names one of the two pump modes and one of the two actions. -/
def PumpEvent.ok : PumpEvent → Prop
  | .call mode action _ =>
    (mode = "irrigation" ∨ mode = "misting") ∧ (action = "start" ∨ action = "stop")
  | .env _ => True

/-- The state after a sequence of events. -/
def runPump (evs : List PumpEvent) (s : DeviceState) : DeviceState :=
  evs.foldl (fun st e => e.apply st) s

/-- The pump state invariant: the two outputs are never HIGH together, a running pump
has one of the two modes and exactly that mode's output HIGH, an idle pump has both
outputs LOW. -/
def PumpInvariant (s : DeviceState) : Prop :=
  ¬ (s.pumpPin1 = true ∧ s.pumpPin2 = true) ∧
  (s.isPumpRunning = true →
    (s.currentPumpMode = "irrigation" ∧ s.pumpPin1 = true ∧ s.pumpPin2 = false) ∨
    (s.currentPumpMode = "misting" ∧ s.pumpPin2 = true ∧ s.pumpPin1 = false)) ∧
  (s.isPumpRunning = false → s.pumpPin1 = false ∧ s.pumpPin2 = false)

/-- The pump variables that the start guards and the forced-stop check look at, and the
two pump outputs. -/
def pumpView (s : DeviceState) : Bool × String × Nat × Nat × Bool × Bool :=
  (s.isPumpRunning, s.currentPumpMode, s.pumpStartTime, s.lastPumpStopTime, s.pumpPin1, s.pumpPin2)

/-! ## Repeated reads of the system command -/

/-- Whether the timestamped handler entered its processing branch ("System command
(object): ..."), that is, acted on the command it read. -/
def SystemAction.acted : SystemAction → Bool
  | .recorded => true
  | .restart => true
  | .factoryReset => true
  | .nothing => false
  | .skippedDuplicate => false

/-- Whether the branch taken ends in `ESP.restart()`: the program then starts again
from its entry point, every global and every `static` variable back at its initial
value. -/
def SystemAction.restarts : SystemAction → Bool
  | .restart => true
  | .factoryReset => true
  | .recorded => false
  | .nothing => false
  | .skippedDuplicate => false

/-- The state in which the device reads the system command the next time: the state
the handler left, or, when the branch taken ended in `ESP.restart()`, the program
started again (`boot`, where the `static String lastTimestamp` is `""` again). Neither
branch deletes or rewrites the `command` and `timestamp` keys of the object format (they
write `status` and `status/online` only), so the backend content is the same at the next
read; after a factory reset that read takes place once WiFi has been set up again. -/
def afterSystemCommand (r : SystemAction × DeviceState) : DeviceState :=
  if r.1.restarts then boot else r.2

/-- The system-command block run `n` times in a row against the same backend content:
the number of runs that acted on the command, and the state before the next read.
Between two runs the device goes through `afterSystemCommand`. -/
def systemPolls (b : Backend) : Nat → DeviceState → Nat × DeviceState
  | 0, s => (0, s)
  | n + 1, s =>
    let r := systemCommand b s
    let rest := systemPolls b n (afterSystemCommand r)
    ((if r.1.acted then 1 else 0) + rest.1, rest.2)

/-! ## Example data -/

/-- An irrigation cycle in progress since reading 10000, with the tank at 60 %. -/
def exIrrigating : DeviceState :=
  { boot with
    isPumpRunning := true, currentPumpMode := "irrigation", pumpStartTime := 10000,
    pumpPin1 := true, currentWaterPercent := 60 }

/-- An iteration at reading 40000 with the backend unreachable and no sensor due. -/
def exLoopInputs : LoopInputs where
  currentMillis := 40000
  wifiAtCheck := true
  wifiAtInit := false
  firebaseReady := false
  firebasePlant := ⟨none, none, none, none, none, none, none, none, none⟩
  sensors := ⟨[], none, none, 0⟩
  backend := ⟨none, ⟨none, none, none, none, none, none, none, none, none⟩, none, none, none, none, none, none, none⟩
  tPumpCommand := 40001
  tShadeCommand := 40002
  tAutoShade := 40003
  tAutoIrrigation := 40004
  tAutoMisting := 40005
  tStopShade := 40006
  tPumpCheck := 40007

/-- An irrigation cycle in progress that was started automatically with baseline 30 %,
the soil now reading `v` %. -/
def exCycle (v : ℚ) : DeviceState :=
  { exIrrigating with
    lastSoilBeforeIrrigation := some 30, soilPercent := some v,
    analog_soil_sensor_is_connected := true }

/-- The state after an ineffective cycle (30 % to 33 %), started at counter reading
4293970000, is stopped 30 s later at reading 4294000000, less than 30 minutes before the
32-bit counter wraps. -/
def exArmedNearWrap : DeviceState :=
  controlPump "irrigation" "stop" 4294000000 { exCycle 33 with pumpStartTime := 4293970000 }

/-- A connected device at rest: soil at 25 %, tank at 60 %, no baseline recorded yet. -/
def exDry : DeviceState :=
  { boot with
    firebase_ready := true, currentWaterPercent := 60, soilPercent := some 25,
    analog_soil_sensor_is_connected := true }

/-- A backend that holds nothing but the pump command `cmd`. -/
def exPumpCommand (cmd : String) : Backend where
  selected_plant := none
  plant := ⟨none, none, none, none, none, none, none, none, none⟩
  mode := none
  pump_mode := none
  pump_command := some cmd
  shade_command := none
  system_command_object := none
  system_command_timestamp := none
  system_command_string := none

/-- Auto mode, shade retracted and idle, temperature channel valid at 35 °C (maximum 30),
light sensor not found. -/
def exHotNoLight : DeviceState :=
  { boot with
    tempSensorConnected := true, temperatureFiltered := some 35, currentTemperature := some 35,
    bh1750_ok := false }

/-- Auto mode, shade retracted and idle, light channel valid at 2000 lux (maximum 1500),
temperature channel invalid. -/
def exBrightNoTemperature : DeviceState :=
  { boot with bh1750_ok := true, currentLightLevel := some 2000, tempSensorConnected := false }

/-- Auto mode, shade retracted and idle, both channels valid: 35 °C, 500 lux. -/
def exHot : DeviceState :=
  { boot with
    tempSensorConnected := true, temperatureFiltered := some 35, currentTemperature := some 35,
    bh1750_ok := true, currentLightLevel := some 500 }

/-- Both bus channels valid after earlier reads: 25 °C and 55 %. -/
def exClimate : DeviceState :=
  { boot with
    tempSensorConnected := true, humiditySensorConnected := true,
    temperatureFiltered := some 25, currentTemperature := some 25,
    humidityFiltered := some 55, currentHumidity := some 55 }

/-- A backend that holds nothing but the timestamped system command `cmd` / `ts`. -/
def exSystemCommand (cmd ts : String) : Backend where
  selected_plant := none
  plant := ⟨none, none, none, none, none, none, none, none, none⟩
  mode := none
  pump_mode := none
  pump_command := none
  shade_command := none
  system_command_object := some cmd
  system_command_timestamp := some ts
  system_command_string := none

/-- The resting device of `exDry` in manual mode, with the periodic tasks (WiFi check,
sensor acquisition, heartbeat) last run at reading 38000. -/
def exDryManual : DeviceState :=
  { exDry with currentMode := "manual", lastWiFiCheck := 38000, lastUpdate := 38000,
               lastHeartbeat := 38000 }

/-- The resting device of `exDry` in auto mode, with the periodic tasks last run at
reading 38000. -/
def exDryAuto : DeviceState :=
  { exDry with lastWiFiCheck := 38000, lastUpdate := 38000, lastHeartbeat := 38000 }

/-- An iteration at reading 40000 in which the backend holds the pump command
`irrigation_start`; the command is handled at reading 40001, the forced-stop check runs
with `controlPump` reading 40007. -/
def exLoopStartCommand : LoopInputs :=
  { exLoopInputs with backend := exPumpCommand "irrigation_start" }

/-! # Theorems -/

/-! ## Single-precision rounding -/

theorem roundHalfEven_intCast (n : ℤ) : roundHalfEven (n : ℚ) = n := by
  unfold roundHalfEven
  rw [Int.floor_intCast, sub_self, if_pos (by norm_num)]

theorem roundHalfEven_le (x : ℚ) (n : ℤ) (h : x ≤ n) : roundHalfEven x ≤ n := by
  have hf : ⌊x⌋ ≤ n := Int.floor_le_iff.mpr (lt_of_le_of_lt h (by linarith))
  unfold roundHalfEven
  have hfl := Int.floor_le x
  have key : ¬ x - ⌊x⌋ < 1 / 2 → ⌊x⌋ + 1 ≤ n := by
    intro hh
    by_contra hc
    have : n = ⌊x⌋ := by omega
    rw [this] at h
    linarith
  split_ifs with h1 h2 h3
  · exact hf
  · exact key h1
  · exact hf
  · exact key h1

theorem le_roundHalfEven (x : ℚ) (n : ℤ) (h : (n : ℚ) ≤ x) : n ≤ roundHalfEven x := by
  have hf : n ≤ ⌊x⌋ := Int.le_floor.mpr h
  unfold roundHalfEven
  split_ifs <;> omega

theorem roundHalfEven_lt_succ_odd (y : ℚ) (m : ℤ) (hodd : m % 2 = 1) :
    roundHalfEven y < m + 1 ↔ y < m + 1 / 2 := by
  have hfl := Int.floor_le y
  have hlt := Int.lt_floor_add_one y
  constructor
  · intro h
    by_contra hc
    push_neg at hc
    have hm : m ≤ ⌊y⌋ := Int.le_floor.mpr (by linarith)
    have hge : ⌊y⌋ ≤ roundHalfEven y := le_roundHalfEven y _ hfl
    have hfm : ⌊y⌋ = m := by omega
    unfold roundHalfEven at h
    rw [hfm] at h
    rw [if_neg (by linarith)] at h
    split_ifs at h <;> omega
  · intro h
    by_cases hf : ⌊y⌋ < m
    · have : roundHalfEven y ≤ ⌊y⌋ + 1 := roundHalfEven_le y _ (by push_cast; linarith)
      omega
    · have hfm : ⌊y⌋ = m := by
        have : ⌊y⌋ ≤ m := Int.floor_le_iff.mpr (by linarith)
        omega
      unfold roundHalfEven
      rw [hfm, if_pos (by linarith)]
      omega

theorem roundF32_of_binade (q : ℚ) (e : ℤ) (he : -126 ≤ e)
    (h1 : (2 : ℚ) ^ e ≤ |q|) (h2 : |q| < (2 : ℚ) ^ (e + 1)) :
    roundF32 q = (roundHalfEven (q / 2 ^ (e - 23)) : ℚ) * 2 ^ (e - 23) := by
  have hpos : 0 < |q| := lt_of_lt_of_le (zpow_pos (by norm_num) e) h1
  have hq : q ≠ 0 := abs_pos.mp hpos
  have hlog : Int.log 2 |q| = e := by
    have a : e ≤ Int.log 2 |q| := (Int.zpow_le_iff_le_log (by norm_num) hpos).mp (by exact_mod_cast h1)
    have b : Int.log 2 |q| < e + 1 := (Int.lt_zpow_iff_log_lt (by norm_num) hpos).mp (by exact_mod_cast h2)
    omega
  unfold roundF32
  rw [if_neg hq, hlog, max_eq_left he]

theorem roundF32_nonpos (q : ℚ) (h : q ≤ 0) : roundF32 q ≤ 0 := by
  unfold roundF32
  split_ifs with h0
  · exact le_refl 0
  · have hu : (0 : ℚ) < 2 ^ (max (Int.log 2 |q|) (-126) - 23) := zpow_pos (by norm_num) _
    have hdiv : q / 2 ^ (max (Int.log 2 |q|) (-126) - 23) ≤ ((0 : ℤ) : ℚ) := by
      rw [Int.cast_zero]
      exact div_nonpos_of_nonpos_of_nonneg h hu.le
    have hr := roundHalfEven_le _ 0 hdiv
    have hr' : (roundHalfEven (q / 2 ^ (max (Int.log 2 |q|) (-126) - 23)) : ℚ) ≤ 0 := by
      exact_mod_cast hr
    exact mul_nonpos_of_nonpos_of_nonneg hr' hu.le

theorem roundF32_le_of_lt_zpow (q : ℚ) (k : ℤ) (hk : -125 ≤ k) (h0 : 0 < q)
    (h : q < (2 : ℚ) ^ k) : roundF32 q ≤ 2 ^ k := by
  have habs : |q| = q := abs_of_pos h0
  have hlog : Int.log 2 |q| < k := by
    rw [habs]
    exact (Int.lt_zpow_iff_log_lt (by norm_num) h0).mp (by exact_mod_cast h)
  have he : max (Int.log 2 |q|) (-126) + 1 ≤ k := by
    rcases max_cases (Int.log 2 |q|) (-126) with ⟨h1, _⟩ | ⟨h1, _⟩ <;> omega
  unfold roundF32
  rw [if_neg h0.ne']
  generalize max (Int.log 2 |q|) (-126) = e at he ⊢
  have hu : (0 : ℚ) < 2 ^ (e - 23) := zpow_pos (by norm_num) _
  have hsplit : (2 : ℚ) ^ k = ((2 ^ (k - (e - 23)).toNat : ℤ) : ℚ) * 2 ^ (e - 23) := by
    have hn : ((k - (e - 23)).toNat : ℤ) = k - (e - 23) := Int.toNat_of_nonneg (by omega)
    push_cast
    rw [← zpow_natCast, hn, ← zpow_add₀ (by norm_num : (2 : ℚ) ≠ 0)]
    congr 1
    ring
  have hdiv : q / 2 ^ (e - 23) ≤ ((2 ^ (k - (e - 23)).toNat : ℤ) : ℚ) := by
    rw [div_le_iff₀ hu, ← hsplit]
    exact h.le
  have hr := roundHalfEven_le _ _ hdiv
  have hr' : (roundHalfEven (q / 2 ^ (e - 23)) : ℚ) ≤ ((2 ^ (k - (e - 23)).toNat : ℤ) : ℚ) := by
    exact_mod_cast hr
  rw [hsplit]
  exact mul_le_mul_of_nonneg_right hr' hu.le

theorem le_roundF32_of_zpow_le (q : ℚ) (k : ℤ) (hk : -126 ≤ k) (h : (2 : ℚ) ^ k ≤ q) :
    2 ^ k ≤ roundF32 q := by
  have h0 : 0 < q := lt_of_lt_of_le (zpow_pos (by norm_num) k) h
  have habs : |q| = q := abs_of_pos h0
  have hlog : k ≤ Int.log 2 |q| := by
    rw [habs]
    exact (Int.zpow_le_iff_le_log (by norm_num) h0).mp (by exact_mod_cast h)
  have hself : (2 : ℚ) ^ (Int.log 2 |q|) ≤ q := by
    have hz : ((2 : ℕ) : ℚ) ^ Int.log 2 |q| ≤ |q| :=
      Int.zpow_log_le_self (by norm_num) (by rw [habs]; exact h0)
    rw [habs] at hz ⊢
    exact_mod_cast hz
  have hmax : max (Int.log 2 |q|) (-126) = Int.log 2 |q| := max_eq_left (by omega)
  unfold roundF32
  rw [if_neg h0.ne', hmax]
  generalize Int.log 2 |q| = e at hlog hself ⊢
  have hu : (0 : ℚ) < 2 ^ (e - 23) := zpow_pos (by norm_num) _
  have hsplit : (2 : ℚ) ^ e = ((2 ^ 23 : ℤ) : ℚ) * 2 ^ (e - 23) := by
    have h23 : ((2 ^ 23 : ℤ) : ℚ) = (2 : ℚ) ^ (23 : ℤ) := by norm_num
    rw [h23, ← zpow_add₀ (by norm_num : (2 : ℚ) ≠ 0)]
    congr 1
    ring
  have hdiv : ((2 ^ 23 : ℤ) : ℚ) ≤ q / 2 ^ (e - 23) := by
    rw [le_div_iff₀ hu, ← hsplit]
    exact hself
  have hr := le_roundHalfEven _ _ hdiv
  have hr' : ((2 ^ 23 : ℤ) : ℚ) ≤ (roundHalfEven (q / 2 ^ (e - 23)) : ℚ) := by
    exact_mod_cast hr
  calc (2 : ℚ) ^ k ≤ 2 ^ e := zpow_le_zpow_right₀ (by norm_num) hlog
    _ = ((2 ^ 23 : ℤ) : ℚ) * 2 ^ (e - 23) := hsplit
    _ ≤ _ := mul_le_mul_of_nonneg_right hr' hu.le

/-- The float nearest to `x` is below 5 exactly when `x` is below the midpoint between 5
and its predecessor `5 - 2^-21`: the tie at the midpoint goes to the even neighbour 5. -/
theorem roundF32_lt_five_iff (x : ℚ) : roundF32 x < 5 ↔ x < 5 - 1 / 4194304 := by
  rcases le_or_lt x 0 with hx | hx
  · have := roundF32_nonpos x hx
    constructor
    · intro _; linarith
    · intro _; linarith
  rcases lt_or_le x 4 with h4 | h4
  · have := roundF32_le_of_lt_zpow x 2 (by norm_num) hx (by norm_num; exact h4)
    norm_num at this
    constructor
    · intro _; linarith
    · intro _; linarith
  rcases lt_or_le x 8 with h8 | h8
  · have habs : |x| = x := abs_of_pos hx
    rw [roundF32_of_binade x 2 (by norm_num) (by rw [habs]; norm_num; exact h4)
      (by rw [habs]; norm_num; exact h8)]
    have hu : (2 : ℚ) ^ ((2 : ℤ) - 23) = 1 / 2097152 := by norm_num [zpow_sub₀, zpow_neg]
    rw [hu]
    have hodd : (10485759 : ℤ) % 2 = 1 := by decide
    have key := roundHalfEven_lt_succ_odd (x / (1 / 2097152)) 10485759 hodd
    constructor
    · intro h
      have h' : (roundHalfEven (x / (1 / 2097152)) : ℚ) < ((10485759 + 1 : ℤ) : ℚ) := by
        push_cast
        linarith
      have h'' := key.mp (by exact_mod_cast h')
      rw [div_lt_iff₀ (by norm_num)] at h''
      push_cast at h''
      linarith
    · intro h
      have h' : x / (1 / 2097152) < ((10485759 : ℤ) : ℚ) + 1 / 2 := by
        rw [div_lt_iff₀ (by norm_num)]
        push_cast
        linarith
      have h'' := key.mpr h'
      have h3 : (roundHalfEven (x / (1 / 2097152)) : ℚ) < ((10485759 + 1 : ℤ) : ℚ) := by
        exact_mod_cast h''
      push_cast at h3
      linarith
  · have := le_roundF32_of_zpow_le x 3 (by norm_num) (by norm_num; exact h8)
    norm_num at this
    constructor
    · intro _; linarith
    · intro _; linarith

/-- A multiple `n * 2^(e-23)` of the spacing of its own binade is a `float`: rounding
leaves it unchanged. -/
theorem roundF32_of_scaled (q : ℚ) (e n : ℤ) (he : -126 ≤ e)
    (h1 : (2 : ℚ) ^ e ≤ |q|) (h2 : |q| < (2 : ℚ) ^ (e + 1))
    (hn : q = (n : ℚ) * 2 ^ (e - 23)) : roundF32 q = q := by
  have hu : (2 : ℚ) ^ (e - 23) ≠ 0 := (zpow_pos (by norm_num) _).ne'
  have hdiv : q / 2 ^ (e - 23) = (n : ℚ) := by
    rw [hn, mul_div_assoc, div_self hu, mul_one]
  rw [roundF32_of_binade q e he h1 h2, hdiv, roundHalfEven_intCast, ← hn]

theorem roundF32_zero : roundF32 0 = 0 := by
  unfold roundF32
  rw [if_pos rfl]

theorem roundF32_three : roundF32 3 = 3 :=
  roundF32_of_scaled 3 1 12582912 (by norm_num) (by norm_num) (by norm_num)
    (by norm_num [zpow_sub₀, zpow_neg])

theorem roundF32_ten : roundF32 10 = 10 :=
  roundF32_of_scaled 10 3 10485760 (by norm_num) (by norm_num) (by norm_num)
    (by norm_num [zpow_sub₀, zpow_neg])

theorem roundF32_thirty : roundF32 30 = 30 :=
  roundF32_of_scaled 30 4 15728640 (by norm_num) (by norm_num) (by norm_num)
    (by norm_num [zpow_sub₀, zpow_neg])

theorem roundF32_thirtyThree : roundF32 33 = 33 :=
  roundF32_of_scaled 33 5 8650752 (by norm_num) (by norm_num) (by norm_num)
    (by norm_num [zpow_sub₀, zpow_neg])

theorem roundF32_forty : roundF32 40 = 40 :=
  roundF32_of_scaled 40 5 10485760 (by norm_num) (by norm_num) (by norm_num)
    (by norm_num [zpow_sub₀, zpow_neg])

/-- The comparison `improvement < 5.0` of the stop branch in exact terms. -/
theorem fsub_lt_five_iff (v b : ℚ) : fsub v b < 5 ↔ v - b < 5 - 1 / 4194304 :=
  roundF32_lt_five_iff (v - b)

theorem cooldownAfter_some (b v : ℚ) (now deadline : Nat) :
    cooldownAfter (some b) (some v) now deadline =
      if fsub v b < 5 then add32 now EXTENDED_COOLDOWN else deadline := rfl

theorem fsub_self (v : ℚ) : fsub v v = 0 := by
  unfold fsub
  rw [sub_self, roundF32_zero]

theorem fsub_33_30 : fsub 33 30 = 3 := by
  have h : (33 : ℚ) - 30 = 3 := by norm_num
  unfold fsub
  rw [h, roundF32_three]

theorem fsub_40_30 : fsub 40 30 = 10 := by
  have h : (40 : ℚ) - 30 = 10 := by norm_num
  unfold fsub
  rw [h, roundF32_ten]

/-! ## C1: pump state invariant -/

theorem controlPump_preserves_invariant (mode action : String) (now : Nat) (s : DeviceState)
    (hm : mode = "irrigation" ∨ mode = "misting") (h : PumpInvariant s) :
    PumpInvariant (controlPump mode action now s) := by
  obtain ⟨h1, h2, h3⟩ := h
  unfold controlPump controlPumpTrace
  by_cases ha : action = "start"
  · subst ha
    rw [if_pos rfl]
    split_ifs with c1 c2 c3 c4 c5 c6
    all_goals first
      | exact ⟨h1, h2, h3⟩
      | (have hr : s.isPumpRunning = false := by simpa using c2
         have hp := h3 hr
         rcases hm with hm | hm <;> simp_all [PumpInvariant])
  · by_cases hb : action = "stop"
    · subst hb
      rw [if_neg (by decide), if_pos rfl]
      by_cases hr : s.isPumpRunning = true
      · by_cases hi : s.currentPumpMode = "irrigation"
        · simp [hr, hi, PumpInvariant]
        · by_cases hmi : s.currentPumpMode = "misting"
          · simp [hr, hmi, PumpInvariant]
          · simp [hr, hi, hmi, PumpInvariant]
      · simp only [Bool.not_eq_true] at hr
        simp only [hr, Bool.not_false, if_true]
        exact ⟨h1, h2, h3⟩
    · rw [if_neg ha, if_neg hb]
      exact ⟨h1, h2, h3⟩

theorem withPumpOf_preserves_invariant (s e : DeviceState) (h : PumpInvariant s) :
    PumpInvariant (withPumpOf s e) := h

/-- C1. From any boot-like state (pump idle, mode "none", both pump outputs LOW), after
any sequence of `controlPump(mode, "start"/"stop")` calls with mode "irrigation" or
"misting" at arbitrary counter readings, interleaved with arbitrary changes of the
sensor values and settings, the two pump outputs are never HIGH together; a running
pump has mode "irrigation" or "misting" with exactly that mode's output HIGH; an idle
pump has both outputs LOW. -/
theorem pump_invariant_reachable (s0 : DeviceState) (evs : List PumpEvent)
    (hrun : s0.isPumpRunning = false)
    (hp1 : s0.pumpPin1 = false) (hp2 : s0.pumpPin2 = false)
    (hev : ∀ e ∈ evs, e.ok) :
    PumpInvariant (runPump evs s0) := by
  have h0 : PumpInvariant s0 := by simp [PumpInvariant, hrun, hp1, hp2]
  clear hrun hp1 hp2
  unfold runPump
  induction evs generalizing s0 with
  | nil => simpa using h0
  | cons e rest ih =>
    rw [List.foldl_cons]
    apply ih
    · intro x hx
      exact hev x (List.mem_cons_of_mem _ hx)
    · have he := hev e (List.mem_cons_self _ _)
      cases e with
      | call mode action now =>
        exact controlPump_preserves_invariant mode action now s0 he.1 h0
      | env e =>
        exact withPumpOf_preserves_invariant s0 e h0

theorem pump_invariant_reachable_witness :
    boot.isPumpRunning = false ∧ boot.pumpPin1 = false ∧ boot.pumpPin2 = false ∧
    PumpInvariant (runPump
      [.env { boot with currentWaterPercent := 60 },
       .call "irrigation" "start" 20000,
       .call "misting" "start" 21000,
       .call "irrigation" "stop" 50000,
       .call "misting" "start" 70000] boot) :=
  ⟨rfl, rfl, rfl,
    pump_invariant_reachable boot _ rfl rfl rfl (by
      intro e he
      simp only [List.mem_cons, List.mem_singleton, List.not_mem_nil, or_false] at he
      rcases he with h | h | h | h | h <;> subst h <;> simp [PumpEvent.ok])⟩

/-! ## C2: forced stop ceiling -/

theorem controlPump_stop_idle (mode : String) (now : Nat) (s : DeviceState) :
    (controlPump mode "stop" now s).isPumpRunning = false ∧
    ((controlPump mode "stop" now s).pumpPin1 = false ∨ s.isPumpRunning = false) ∧
    ((controlPump mode "stop" now s).pumpPin2 = false ∨ s.isPumpRunning = false) := by
  unfold controlPump controlPumpTrace
  rw [if_neg (by decide), if_pos rfl]
  by_cases hr : s.isPumpRunning = true
  · by_cases hi : s.currentPumpMode = "irrigation"
    · simp [hr, hi]
    · by_cases hmi : s.currentPumpMode = "misting"
      · simp [hr, hmi]
      · simp [hr, hi, hmi]
  · simp only [Bool.not_eq_true] at hr
    simp [hr]

/-- C2. In every iteration of `loop()` that reaches the forced-stop check with the pump
running and the 32-bit elapsed time `currentMillis - pumpStartTime` at least the active
mode's maximum (30000 ms for irrigation, 15000 ms for misting), the iteration ends with
`isPumpRunning = false` and both pump outputs LOW, whatever the inputs of the
iteration, the operating mode, the target selector and the sensor values are. -/
theorem forced_stop_ceiling (i : LoopInputs) (s m : DeviceState)
    (hreach : loop_upToPumpCheck i s = some m)
    (hrun : m.isPumpRunning = true)
    (helapsed : (m.currentPumpMode = "irrigation" ∧ 30000 ≤ sub32 i.currentMillis m.pumpStartTime) ∨
                (m.currentPumpMode = "misting" ∧ 15000 ≤ sub32 i.currentMillis m.pumpStartTime)) :
    ∃ s', loop i s = some s' ∧ s'.isPumpRunning = false ∧ s'.pumpPin1 = false ∧ s'.pumpPin2 = false := by
  refine ⟨loop_pumpCheck i.currentMillis i.tPumpCheck m, ?_, ?_⟩
  · simp [loop, hreach]
  · have hstop := controlPump_stop_idle m.currentPumpMode i.tPumpCheck m
    have hcheck : loop_pumpCheck i.currentMillis i.tPumpCheck m =
        controlPump m.currentPumpMode "stop" i.tPumpCheck m := by
      unfold loop_pumpCheck
      rcases helapsed with ⟨hm, he⟩ | ⟨hm, he⟩
      · simp [hrun, hm, IRRIGATION_DURATION, he]
      · simp [hrun, hm, MISTING_DURATION, he]
    rw [hcheck]
    refine ⟨hstop.1, ?_, ?_⟩
    · rcases hstop.2.1 with h | h
      · exact h
      · rw [hrun] at h; cases h
    · rcases hstop.2.2 with h | h
      · exact h
      · rw [hrun] at h; cases h

theorem forced_stop_ceiling_witness :
    ∃ s', loop exLoopInputs exIrrigating = some s' ∧ s'.isPumpRunning = false ∧
      s'.pumpPin1 = false ∧ s'.pumpPin2 = false :=
  forced_stop_ceiling exLoopInputs exIrrigating
    { exIrrigating with lastWiFiCheck := 40000, lastUpdate := 40000, lastHeartbeat := 40000 }
    (by decide) rfl (Or.inl ⟨rfl, by decide⟩)

/-! ## C3: order of the start guards -/

theorem controlPumpTrace_start (mode : String) (now : Nat) (s : DeviceState) :
    controlPumpTrace mode "start" now s =
      if s.currentWaterPercent < s.waterLevelLowThreshold then (.waterLow, s)
      else if s.isPumpRunning = true then (.busy, s)
      else if sub32 now s.lastPumpStopTime < PUMP_REST_PERIOD then (.resting, s)
      else if now < s.extendedCooldownUntil then (.extendedCooldown, s)
      else if mode = "irrigation" then
        (.started, { s with currentPumpMode := mode, isPumpRunning := true, pumpStartTime := now,
                            pumpPin1 := true })
      else if mode = "misting" then
        (.started, { s with currentPumpMode := mode, isPumpRunning := true, pumpStartTime := now,
                            pumpPin2 := true })
      else
        (.started, { s with currentPumpMode := mode, isPumpRunning := true, pumpStartTime := now }) := by
  unfold controlPumpTrace
  rw [if_pos rfl]

theorem start_guard_iff (mode : String) (now : Nat) (s : DeviceState) :
    (controlPumpTrace mode "start" now s).1 = .started ↔
      ¬ s.currentWaterPercent < s.waterLevelLowThreshold ∧ s.isPumpRunning = false ∧
      ¬ sub32 now s.lastPumpStopTime < 10000 ∧ ¬ now < s.extendedCooldownUntil := by
  rw [controlPumpTrace_start]
  simp only [PUMP_REST_PERIOD]
  by_cases c1 : s.currentWaterPercent < s.waterLevelLowThreshold
  · simp [c1]
  · by_cases c2 : s.isPumpRunning = true
    · simp [c1, c2]
    · have c2' : s.isPumpRunning = false := by simpa using c2
      by_cases c3 : sub32 now s.lastPumpStopTime < 10000
      · simp [c1, c2', c3]
      · by_cases c4 : now < s.extendedCooldownUntil
        · simp [c1, c2', c3, c4]
        · by_cases m1 : mode = "irrigation"
          · simp [c1, c2', c3, c4, m1]
          · by_cases m2 : mode = "misting"
            · simp [c1, c2', c3, c4, m2]
            · simp [c1, c2', c3, c4, m1, m2]

theorem start_rejected_by_cooldown (mode : String) (now : Nat) (s : DeviceState)
    (hw : ¬ s.currentWaterPercent < s.waterLevelLowThreshold) (hr : s.isPumpRunning = false)
    (hrest : ¬ sub32 now s.lastPumpStopTime < 10000) (hc : now < s.extendedCooldownUntil) :
    (controlPumpTrace mode "start" now s).1 = .extendedCooldown ∧
    controlPump mode "start" now s = s := by
  unfold controlPump
  rw [controlPumpTrace_start]
  simp [PUMP_REST_PERIOD, hw, hr, hrest, hc]

/-- C3. `controlPump(mode, "start")` checks its guards in the order water-low, busy,
resting, extended-cooldown and the first failing one decides: water-low if
`currentWaterPercent < waterLevelLowThreshold`; otherwise busy if the pump runs;
otherwise resting if the 32-bit difference `now - lastPumpStopTime` is below 10000;
otherwise extended-cooldown if `now < extendedCooldownUntil`. The start succeeds exactly
when none of the four holds (the pump then runs in `mode` since `now`), and every
rejection leaves the whole state unchanged. -/
theorem start_guard_order (mode : String) (now : Nat) (s : DeviceState) :
    (s.currentWaterPercent < s.waterLevelLowThreshold →
      controlPumpTrace mode "start" now s = (.waterLow, s)) ∧
    (¬ s.currentWaterPercent < s.waterLevelLowThreshold → s.isPumpRunning = true →
      controlPumpTrace mode "start" now s = (.busy, s)) ∧
    (¬ s.currentWaterPercent < s.waterLevelLowThreshold → s.isPumpRunning = false →
      sub32 now s.lastPumpStopTime < 10000 →
      controlPumpTrace mode "start" now s = (.resting, s)) ∧
    (¬ s.currentWaterPercent < s.waterLevelLowThreshold → s.isPumpRunning = false →
      ¬ sub32 now s.lastPumpStopTime < 10000 → now < s.extendedCooldownUntil →
      controlPumpTrace mode "start" now s = (.extendedCooldown, s)) ∧
    ((controlPumpTrace mode "start" now s).1 = .started ↔
      ¬ s.currentWaterPercent < s.waterLevelLowThreshold ∧ s.isPumpRunning = false ∧
      ¬ sub32 now s.lastPumpStopTime < 10000 ∧ ¬ now < s.extendedCooldownUntil) ∧
    ((controlPumpTrace mode "start" now s).1 = .started →
      (controlPump mode "start" now s).isPumpRunning = true ∧
      (controlPump mode "start" now s).currentPumpMode = mode ∧
      (controlPump mode "start" now s).pumpStartTime = now) ∧
    ((controlPumpTrace mode "start" now s).1 ≠ .started →
      controlPump mode "start" now s = s) := by
  unfold controlPump
  rw [controlPumpTrace_start]
  simp only [PUMP_REST_PERIOD]
  by_cases c1 : s.currentWaterPercent < s.waterLevelLowThreshold
  · simp [c1]
  · by_cases c2 : s.isPumpRunning = true
    · simp [c1, c2]
    · have c2' : s.isPumpRunning = false := by simpa using c2
      by_cases c3 : sub32 now s.lastPumpStopTime < 10000
      · simp [c1, c2', c3]
      · by_cases c4 : now < s.extendedCooldownUntil
        · simp [c1, c2', c3, c4]
        · by_cases m1 : mode = "irrigation"
          · simp [c1, c2', c3, c4, m1]
          · by_cases m2 : mode = "misting"
            · simp [c1, c2', c3, c4, m2]
            · simp [c1, c2', c3, c4, m1, m2]

/-! ## C4: rest period -/

/-- C4, as stated, fails: eight seconds after a stop at reading 40000 a start is
rejected, but with the tank below the threshold the reason is water-low, not resting. -/
theorem rest_reason_counterexample :
    (controlPump "irrigation" "stop" 40000 { exIrrigating with currentWaterPercent := 10 }).lastPumpStopTime
        = 40000 ∧
    sub32 48000 40000 < PUMP_REST_PERIOD ∧
    (controlPumpTrace "irrigation" "start" 48000
      (controlPump "irrigation" "stop" 40000 { exIrrigating with currentWaterPercent := 10 })).1
        = .waterLow ∧
    (controlPumpTrace "irrigation" "start" 48000
      (controlPump "irrigation" "stop" 40000 { exIrrigating with currentWaterPercent := 10 })).1
        ≠ .resting := by
  decide

/-- C4, amended. For every state whose last stop was at reading `tStop` and every call
`controlPump(mode, "start")` at a reading `t` with 32-bit difference `t - tStop` below
10000, the call is rejected and changes nothing, whatever the water level, the running
flag and the extended-cooldown deadline are; the reason is resting exactly when the
water level is at or above the threshold and the pump is not running, water-low when the
water level is below the threshold, and busy when the water is sufficient and the pump
runs. -/
theorem rest_period_enforced (mode : String) (t tStop : Nat) (s : DeviceState)
    (hstop : s.lastPumpStopTime = tStop) (hrest : sub32 t tStop < 10000) :
    controlPump mode "start" t s = s ∧
    (controlPumpTrace mode "start" t s).1 ≠ .started ∧
    ((controlPumpTrace mode "start" t s).1 = .resting ↔
      ¬ s.currentWaterPercent < s.waterLevelLowThreshold ∧ s.isPumpRunning = false) ∧
    (s.currentWaterPercent < s.waterLevelLowThreshold →
      (controlPumpTrace mode "start" t s).1 = .waterLow) ∧
    (¬ s.currentWaterPercent < s.waterLevelLowThreshold → s.isPumpRunning = true →
      (controlPumpTrace mode "start" t s).1 = .busy) := by
  subst hstop
  unfold controlPump
  rw [controlPumpTrace_start]
  simp only [PUMP_REST_PERIOD]
  by_cases c1 : s.currentWaterPercent < s.waterLevelLowThreshold
  · simp [c1]
  · by_cases c2 : s.isPumpRunning = true
    · simp [c1, c2]
    · have c2' : s.isPumpRunning = false := by simpa using c2
      simp [c1, c2', hrest]

theorem rest_period_enforced_witness :
    (controlPump "irrigation" "stop" 40000 exIrrigating).lastPumpStopTime = 40000 ∧
    sub32 48000 40000 < 10000 ∧
    controlPump "irrigation" "start" 48000 (controlPump "irrigation" "stop" 40000 exIrrigating)
      = controlPump "irrigation" "stop" 40000 exIrrigating ∧
    (controlPumpTrace "irrigation" "start" 48000
      (controlPump "irrigation" "stop" 40000 exIrrigating)).1 = .resting :=
  have h := rest_period_enforced "irrigation" 48000 40000
    (controlPump "irrigation" "stop" 40000 exIrrigating) (by decide) (by decide)
  ⟨by decide, by decide, h.1, h.2.2.1.mpr (by decide)⟩

/-! ## C5: effectiveness rule at stop -/

theorem controlPump_stop_running (mode : String) (now : Nat) (s : DeviceState)
    (hrun : s.isPumpRunning = true) :
    (s.currentPumpMode = "irrigation" →
      (controlPump mode "stop" now s).extendedCooldownUntil =
        cooldownAfter s.lastSoilBeforeIrrigation s.soilPercent now s.extendedCooldownUntil) ∧
    (s.currentPumpMode = "misting" →
      (controlPump mode "stop" now s).extendedCooldownUntil =
        cooldownAfter s.lastHumidityBeforeMisting s.currentHumidity now s.extendedCooldownUntil) ∧
    (controlPump mode "stop" now s).lastPumpStopTime = now ∧
    (controlPump mode "stop" now s).isPumpRunning = false ∧
    (controlPump mode "stop" now s).currentWaterPercent = s.currentWaterPercent ∧
    (controlPump mode "stop" now s).waterLevelLowThreshold = s.waterLevelLowThreshold := by
  unfold controlPump controlPumpTrace
  rw [if_neg (by decide), if_pos rfl]
  by_cases hi : s.currentPumpMode = "irrigation"
  · simp [hrun, hi]
  · by_cases hmi : s.currentPumpMode = "misting"
    · simp [hrun, hmi]
    · simp [hrun, hi, hmi]

/-- C5. A running cycle with a valid baseline `b` is stopped at counter reading `t` with
a valid current value `v` (soil percent for irrigation, humidity for misting), `b` and `v`
being `float` values. With the improvement `v - b` as the source computes it, the `float`
difference `fsub v b`: `extendedCooldownUntil` becomes `t + 1800000` (as a 32-bit unsigned
sum) if the improvement is below 5 and keeps its value if the improvement is at least 5;
in the latter case, with no earlier deadline pending, the next start is decided by the
water level and the 10 s rest period alone. -/
theorem effectiveness_rule (mode : String) (t : Nat) (s : DeviceState) (b v : ℚ)
    (hrun : s.isPumpRunning = true) (_hb : isFloat b) (_hv : isFloat v)
    (hcycle :
      (s.currentPumpMode = "irrigation" ∧ s.lastSoilBeforeIrrigation = some b ∧
        s.soilPercent = some v) ∨
      (s.currentPumpMode = "misting" ∧ s.lastHumidityBeforeMisting = some b ∧
        s.currentHumidity = some v)) :
    (fsub v b < 5 →
      (controlPump mode "stop" t s).extendedCooldownUntil = (t + 1800000) % 4294967296) ∧
    (5 ≤ fsub v b →
      (controlPump mode "stop" t s).extendedCooldownUntil = s.extendedCooldownUntil ∧
      ∀ (mode' : String) (t' : Nat), s.extendedCooldownUntil ≤ t' →
        ((controlPumpTrace mode' "start" t' (controlPump mode "stop" t s)).1 = .started ↔
          s.waterLevelLowThreshold ≤ s.currentWaterPercent ∧ 10000 ≤ sub32 t' t)) := by
  obtain ⟨h1, h2, h3, h4, h5, h6⟩ := controlPump_stop_running mode t s hrun
  have hcool : (controlPump mode "stop" t s).extendedCooldownUntil =
      if fsub v b < 5 then (t + 1800000) % 4294967296 else s.extendedCooldownUntil := by
    rcases hcycle with ⟨hm, hb, hv⟩ | ⟨hm, hb, hv⟩
    · rw [h1 hm, hb, hv]; rfl
    · rw [h2 hm, hb, hv]; rfl
  constructor
  · intro hlt
    rw [hcool, if_pos hlt]
  · intro hge
    have hnlt : ¬ fsub v b < 5 := not_lt.mpr hge
    rw [hcool, if_neg hnlt]
    refine ⟨rfl, ?_⟩
    intro mode' t' hdl
    have hstart := (start_guard_iff mode' t' (controlPump mode "stop" t s))
    rw [hstart, h3, h4, h5, h6, hcool, if_neg hnlt]
    constructor
    · rintro ⟨a, _, c, _⟩
      exact ⟨not_lt.mp a, not_lt.mp c⟩
    · rintro ⟨a, c⟩
      exact ⟨not_lt.mpr a, rfl, not_lt.mpr c, not_lt.mpr hdl⟩

theorem effectiveness_rule_witness :
    fsub 33 30 = 3 ∧ fsub 40 30 = 10 ∧
    (controlPump "irrigation" "stop" 40000 (exCycle 33)).extendedCooldownUntil = 1840000 ∧
    (controlPump "irrigation" "stop" 40000 (exCycle 40)).extendedCooldownUntil = 0 ∧
    (controlPumpTrace "irrigation" "start" 50000
      (controlPump "irrigation" "stop" 40000 (exCycle 40))).1 = .started ∧
    (controlPumpTrace "irrigation" "start" 49999
      (controlPump "irrigation" "stop" 40000 (exCycle 40))).1 = .resting ∧
    (controlPumpTrace "irrigation" "start" 50000
      (controlPump "irrigation" "stop" 40000 (exCycle 33))).1 = .extendedCooldown :=
  have h33 := effectiveness_rule "irrigation" 40000 (exCycle 33) 30 33 rfl
    roundF32_thirty roundF32_thirtyThree (Or.inl ⟨rfl, rfl, rfl⟩)
  have h40 := effectiveness_rule "irrigation" 40000 (exCycle 40) 30 40 rfl
    roundF32_thirty roundF32_forty (Or.inl ⟨rfl, rfl, rfl⟩)
  have hs := controlPump_stop_running "irrigation" 40000 (exCycle 33) rfl
  have hdl : (controlPump "irrigation" "stop" 40000 (exCycle 33)).extendedCooldownUntil
      = 1840000 := h33.1 (by rw [fsub_33_30]; norm_num)
  ⟨fsub_33_30, fsub_40_30, hdl, (h40.2 (by rw [fsub_40_30]; norm_num)).1,
   ((h40.2 (by rw [fsub_40_30]; norm_num)).2 "irrigation" 50000 (by decide)).mpr (by decide),
   by decide,
   (start_rejected_by_cooldown "irrigation" 50000 _
      (by rw [hs.2.2.2.2.1, hs.2.2.2.2.2]; decide) hs.2.2.2.1
      (by rw [hs.2.2.1]; decide) (by rw [hdl]; decide)).1⟩

/-- The comparison is decided by the rounded difference. With the stored values of a
cycle that starts at raw soil reading 2995 and stops at 2910 (default anchors), both
`float` values, the exact difference is `4.99999979...`, below 5, while the `float`
difference is exactly 5: the stop leaves `extendedCooldownUntil` unchanged. In general
the `float` difference is below 5 exactly when the exact difference is below
`5 - 2^-22`. -/
theorem improvement_rounded_before_comparison :
    isFloat (9868951 / 33554432) ∧ isFloat (11102569 / 2097152) ∧
    (11102569 / 2097152 : ℚ) - 9868951 / 33554432 < 5 ∧
    fsub (11102569 / 2097152) (9868951 / 33554432) = 5 ∧
    (controlPump "irrigation" "stop" 40000
      { exCycle (11102569 / 2097152) with
        lastSoilBeforeIrrigation := some (9868951 / 33554432) }).extendedCooldownUntil = 0 ∧
    isFloat (16684695 / 524288) ∧ isFloat (9653067 / 262144) ∧
    fsub (9653067 / 262144) (16684695 / 524288) = 2621439 / 524288 ∧
    (controlPump "irrigation" "stop" 40000
      { exCycle (9653067 / 262144) with
        lastSoilBeforeIrrigation := some (16684695 / 524288) }).extendedCooldownUntil
      = 1840000 := by
  have hA : isFloat (9868951 / 33554432) :=
    roundF32_of_scaled _ (-2) 9868951 (by norm_num) (by norm_num [abs_of_pos, zpow_neg])
      (by norm_num [abs_of_pos, zpow_neg]) (by norm_num [zpow_sub₀, zpow_neg])
  have hB : isFloat (11102569 / 2097152) :=
    roundF32_of_scaled _ 2 11102569 (by norm_num) (by norm_num [abs_of_pos])
      (by norm_num [abs_of_pos]) (by norm_num [zpow_sub₀, zpow_neg])
  have hC : isFloat (16684695 / 524288) :=
    roundF32_of_scaled _ 4 16684695 (by norm_num) (by norm_num [abs_of_pos])
      (by norm_num [abs_of_pos]) (by norm_num [zpow_sub₀, zpow_neg])
  have hD : isFloat (9653067 / 262144) :=
    roundF32_of_scaled _ 5 9653067 (by norm_num) (by norm_num [abs_of_pos])
      (by norm_num [abs_of_pos]) (by norm_num [zpow_sub₀, zpow_neg])
  have h5 : fsub (11102569 / 2097152) (9868951 / 33554432) = 5 := by
    have hd : (11102569 / 2097152 : ℚ) - 9868951 / 33554432 = 167772153 / 33554432 := by
      norm_num
    unfold fsub
    rw [hd, roundF32_of_binade _ 2 (by norm_num) (by norm_num [abs_of_pos])
      (by norm_num [abs_of_pos])]
    have hq : (167772153 / 33554432 : ℚ) / 2 ^ ((2 : ℤ) - 23) = 167772153 / 16 := by
      norm_num [zpow_sub₀, zpow_neg]
    rw [hq]
    have hr : roundHalfEven (167772153 / 16) = 10485760 := by
      unfold roundHalfEven
      norm_num
    rw [hr]
    norm_num [zpow_sub₀, zpow_neg]
  have h6 : fsub (9653067 / 262144) (16684695 / 524288) = 2621439 / 524288 := by
    have hd : (9653067 / 262144 : ℚ) - 16684695 / 524288 = 2621439 / 524288 := by norm_num
    unfold fsub
    rw [hd]
    exact roundF32_of_scaled _ 2 10485756 (by norm_num) (by norm_num [abs_of_pos])
      (by norm_num [abs_of_pos]) (by norm_num [zpow_sub₀, zpow_neg])
  refine ⟨hA, hB, by norm_num, h5, ?_, hC, hD, h6, ?_⟩
  · rw [(controlPump_stop_running "irrigation" 40000 _ rfl).1 rfl]
    show cooldownAfter (some (9868951 / 33554432)) (some (11102569 / 2097152)) 40000 0 = 0
    rw [cooldownAfter_some, h5, if_neg (lt_irrefl 5)]
  · rw [(controlPump_stop_running "irrigation" 40000 _ rfl).1 rfl]
    show cooldownAfter (some (16684695 / 524288)) (some (9653067 / 262144)) 40000 0 = 1840000
    rw [cooldownAfter_some, h6, if_pos (by norm_num)]
    rfl

/-! ## C6: extended cooldown as a lockout -/

theorem start_irrigation_ok (now : Nat) (s : DeviceState)
    (hw : ¬ s.currentWaterPercent < s.waterLevelLowThreshold) (hr : s.isPumpRunning = false)
    (hrest : ¬ sub32 now s.lastPumpStopTime < 10000) (hc : ¬ now < s.extendedCooldownUntil) :
    controlPump "irrigation" "start" now s =
      { s with currentPumpMode := "irrigation", isPumpRunning := true, pumpStartTime := now,
               pumpPin1 := true } := by
  unfold controlPump
  rw [controlPumpTrace_start]
  simp [PUMP_REST_PERIOD, hw, hr, hrest, hc]

theorem start_misting_ok (now : Nat) (s : DeviceState)
    (hw : ¬ s.currentWaterPercent < s.waterLevelLowThreshold) (hr : s.isPumpRunning = false)
    (hrest : ¬ sub32 now s.lastPumpStopTime < 10000) (hc : ¬ now < s.extendedCooldownUntil) :
    controlPump "misting" "start" now s =
      { s with currentPumpMode := "misting", isPumpRunning := true, pumpStartTime := now,
               pumpPin2 := true } := by
  unfold controlPump
  rw [controlPumpTrace_start]
  simp [PUMP_REST_PERIOD, hw, hr, hrest, hc]

theorem autoControlIrrigation_of_guards (now : Nat) (s : DeviceState)
    (hmode : s.currentMode = "auto") (hsel : s.pumpMode = "soil")
    (hvalid : s.analog_soil_sensor_is_connected = true) (hidle : s.isPumpRunning = false)
    (hwater : ¬ s.currentWaterPercent < s.waterLevelLowThreshold)
    (hrest : ¬ sub32 now s.lastPumpStopTime < 10000) (hcool : ¬ now < s.extendedCooldownUntil) :
    autoControlIrrigation now s =
      if s.soilPercent.ltInt s.plantMinSoilMoisture = true then
        { s with lastSoilBeforeIrrigation := s.soilPercent, currentPumpMode := "irrigation",
                 isPumpRunning := true, pumpStartTime := now, pumpPin1 := true }
      else s := by
  unfold autoControlIrrigation
  rw [if_neg (by simp [hmode]), if_neg (by simp [hsel]), if_neg (by simp [hvalid]),
    if_neg (by simp [hidle]), if_neg hwater, if_neg hcool,
    if_neg (by simpa [PUMP_REST_PERIOD] using hrest)]
  split_ifs with h
  · exact start_irrigation_ok now _ hwater hidle hrest hcool
  · rfl

theorem exArmedNearWrap_eq :
    exArmedNearWrap =
      { exCycle 33 with
        pumpPin1 := false, pumpStartTime := 4293970000, totalIrrigationRuntime := 30,
        irrigationCycleCount := 1, extendedCooldownUntil := 832704, isPumpRunning := false,
        currentPumpMode := "none", lastPumpStopTime := 4294000000 } := by
  simp [exArmedNearWrap, controlPump, controlPumpTrace, exCycle, exIrrigating, boot,
    cooldownAfter, fsub_33_30, add32, sub32, EXTENDED_COOLDOWN, WORD]
  norm_num

/-- C6 fails on the code. An ineffective irrigation cycle (30 % to 33 %) is stopped at
counter reading 4294000000, after 49.7 days less 16 minutes of uptime: the deadline is
armed as the wrapped sum 832704. Twenty
seconds later, at reading 4294020000 (inside the 30 minutes), both a commanded start and
`autoControlIrrigation` start the pump, because `millis() < extendedCooldownUntil`
compares the large reading with the small wrapped deadline. -/
theorem extended_cooldown_lost_at_wrap :
    exArmedNearWrap.isPumpRunning = false ∧
    exArmedNearWrap.extendedCooldownUntil = 832704 ∧
    exArmedNearWrap.lastPumpStopTime = 4294000000 ∧
    (4294000000 ≤ 4294020000 ∧ 4294020000 < 4294000000 + 1800000 ∧ 4294020000 < WORD) ∧
    (controlPump "irrigation" "start" 4294020000 exArmedNearWrap).isPumpRunning = true ∧
    (controlPump "irrigation" "start" 4294020000 exArmedNearWrap).pumpPin1 = true ∧
    (autoControlIrrigation 4294020000 exArmedNearWrap).isPumpRunning = true := by
  have hw : ¬ exArmedNearWrap.currentWaterPercent < exArmedNearWrap.waterLevelLowThreshold := by
    rw [exArmedNearWrap_eq]; decide
  have hr : exArmedNearWrap.isPumpRunning = false := by rw [exArmedNearWrap_eq]
  have hrest : ¬ sub32 4294020000 exArmedNearWrap.lastPumpStopTime < 10000 := by
    rw [exArmedNearWrap_eq]; decide
  have hc : ¬ 4294020000 < exArmedNearWrap.extendedCooldownUntil := by
    rw [exArmedNearWrap_eq]; decide
  have hlt : exArmedNearWrap.soilPercent.ltInt exArmedNearWrap.plantMinSoilMoisture = true := by
    rw [exArmedNearWrap_eq]
    simp [exCycle, exIrrigating, boot, Flt.ltInt]
    norm_num
  refine ⟨hr, by rw [exArmedNearWrap_eq], by rw [exArmedNearWrap_eq],
    ⟨by decide, by decide, by decide⟩, ?_, ?_, ?_⟩
  · rw [start_irrigation_ok _ _ hw hr hrest hc]
  · rw [start_irrigation_ok _ _ hw hr hrest hc]
  · rw [autoControlIrrigation_of_guards _ _ (by rw [exArmedNearWrap_eq]; rfl)
      (by rw [exArmedNearWrap_eq]; rfl) (by rw [exArmedNearWrap_eq]; rfl) hr hw hrest hc,
      if_pos hlt]

theorem start_rejected_before_deadline (mode : String) (now : Nat) (s : DeviceState)
    (hc : now < s.extendedCooldownUntil) :
    controlPump mode "start" now s = s := by
  unfold controlPump
  rw [controlPumpTrace_start]
  split_ifs <;> rfl

theorem auto_rejected_before_deadline (now : Nat) (s : DeviceState)
    (hc : now < s.extendedCooldownUntil) :
    autoControlIrrigation now s = s ∧ autoControlMisting now s = s := by
  unfold autoControlIrrigation autoControlMisting
  constructor <;> (split_ifs <;> rfl)

/-- Away from the counter wrap the extended cooldown does lock the pump out: when the
stop reading `t` satisfies `t + 1800000 < 2^32`, then at every reading `t'` with
`t ≤ t' < t + 1800000`, whatever the sensors and settings have become, a commanded start
and both automatic policies leave the state as it is. -/
theorem extended_cooldown_lockout_without_wrap (stopMode : String) (t t' : Nat)
    (s e : DeviceState) (b v : ℚ)
    (hrun : s.isPumpRunning = true)
    (hcycle :
      (s.currentPumpMode = "irrigation" ∧ s.lastSoilBeforeIrrigation = some b ∧
        s.soilPercent = some v) ∨
      (s.currentPumpMode = "misting" ∧ s.lastHumidityBeforeMisting = some b ∧
        s.currentHumidity = some v))
    (hineff : fsub v b < 5) (hnowrap : t + 1800000 < 4294967296)
    (_h1 : t ≤ t') (h2 : t' < t + 1800000) :
    (∀ mode, controlPump mode "start" t' (withPumpOf (controlPump stopMode "stop" t s) e)
        = withPumpOf (controlPump stopMode "stop" t s) e) ∧
    autoControlIrrigation t' (withPumpOf (controlPump stopMode "stop" t s) e)
        = withPumpOf (controlPump stopMode "stop" t s) e ∧
    autoControlMisting t' (withPumpOf (controlPump stopMode "stop" t s) e)
        = withPumpOf (controlPump stopMode "stop" t s) e := by
  obtain ⟨h1, h2', _, _, _, _⟩ := controlPump_stop_running stopMode t s hrun
  have hdl : (withPumpOf (controlPump stopMode "stop" t s) e).extendedCooldownUntil
      = t + 1800000 := by
    show (controlPump stopMode "stop" t s).extendedCooldownUntil = t + 1800000
    rcases hcycle with ⟨hm, hb, hv⟩ | ⟨hm, hb, hv⟩
    · rw [h1 hm, hb, hv]
      rw [cooldownAfter_some, if_pos hineff]
      simp only [add32, EXTENDED_COOLDOWN, WORD]
      exact Nat.mod_eq_of_lt hnowrap
    · rw [h2' hm, hb, hv]
      rw [cooldownAfter_some, if_pos hineff]
      simp only [add32, EXTENDED_COOLDOWN, WORD]
      exact Nat.mod_eq_of_lt hnowrap
  have hc : t' < (withPumpOf (controlPump stopMode "stop" t s) e).extendedCooldownUntil := by
    rw [hdl]; exact h2
  exact ⟨fun mode => start_rejected_before_deadline mode t' _ hc,
    (auto_rejected_before_deadline t' _ hc).1, (auto_rejected_before_deadline t' _ hc).2⟩

/-! ## C7: baseline capture on start -/

theorem controlPump_frame (mode action : String) (now : Nat) (s : DeviceState) :
    controlPump mode action now s = withPumpOf (controlPump mode action now s) s := by
  by_cases ha : action = "start"
  · subst ha
    unfold controlPump
    rw [controlPumpTrace_start]
    split_ifs <;> rfl
  · unfold controlPump controlPumpTrace
    rw [if_neg ha]
    by_cases hb : action = "stop"
    · rw [if_pos hb]
      by_cases hr : s.isPumpRunning = true
      · by_cases hi : s.currentPumpMode = "irrigation"
        · simp [hr, hi, withPumpOf]
        · by_cases hmi : s.currentPumpMode = "misting"
          · simp [hr, hmi, withPumpOf]
          · simp [hr, hi, hmi, withPumpOf]
      · simp only [Bool.not_eq_true] at hr
        rw [if_pos (by simp [hr])]
        rfl
    · rw [if_neg hb]
      rfl

theorem pumpCommand_keeps_baselines (cmd : String) (now : Nat) (s : DeviceState) :
    (pumpCommand cmd now s).lastSoilBeforeIrrigation = s.lastSoilBeforeIrrigation ∧
    (pumpCommand cmd now s).lastHumidityBeforeMisting = s.lastHumidityBeforeMisting := by
  have key : ∀ mode action,
      (controlPump mode action now s).lastSoilBeforeIrrigation = s.lastSoilBeforeIrrigation ∧
      (controlPump mode action now s).lastHumidityBeforeMisting = s.lastHumidityBeforeMisting := by
    intro mode action
    have h1 := congrArg DeviceState.lastSoilBeforeIrrigation (controlPump_frame mode action now s)
    have h2 := congrArg DeviceState.lastHumidityBeforeMisting (controlPump_frame mode action now s)
    exact ⟨h1, h2⟩
  unfold pumpCommand
  split_ifs
  · exact key _ _
  · exact key _ _
  · exact key _ _
  · exact key _ _
  · exact ⟨rfl, rfl⟩

/-- C7 fails on the code for the command path. With the soil at 25 %, the tank at 60 %
and no baseline recorded, the remote command `irrigation_start` starts the pump and
leaves `lastSoilBeforeIrrigation` NaN instead of 25, while `autoControlIrrigation` in
the same state starts the pump and records 25. -/
theorem command_start_records_no_baseline :
    (checkCommands (exPumpCommand "irrigation_start") 20000 20001 exDry).2.isPumpRunning = true ∧
    (checkCommands (exPumpCommand "irrigation_start") 20000 20001 exDry).2.currentPumpMode
      = "irrigation" ∧
    (checkCommands (exPumpCommand "irrigation_start") 20000 20001 exDry).2.pumpPin1 = true ∧
    (checkCommands (exPumpCommand "irrigation_start") 20000 20001 exDry).2.soilPercent
      = some 25 ∧
    (checkCommands (exPumpCommand "irrigation_start") 20000 20001 exDry).2.lastSoilBeforeIrrigation
      = none ∧
    (autoControlIrrigation 20000 exDry).isPumpRunning = true ∧
    (autoControlIrrigation 20000 exDry).lastSoilBeforeIrrigation = some 25 ∧
    (controlPump "irrigation" "stop" 50000
      (checkCommands (exPumpCommand "irrigation_start") 20000 20001 exDry).2).extendedCooldownUntil
      = 0 ∧
    (controlPump "irrigation" "stop" 50000
      (autoControlIrrigation 20000 exDry)).extendedCooldownUntil = 1850000 := by
  have hcmd : (checkCommands (exPumpCommand "irrigation_start") 20000 20001 exDry).2 =
      { exDry with currentPumpMode := "irrigation", isPumpRunning := true,
                   pumpStartTime := 20000, pumpPin1 := true } := by
    decide
  have hlt : exDry.soilPercent.ltInt exDry.plantMinSoilMoisture = true := by
    simp [exDry, boot, Flt.ltInt]
    norm_num
  have hauto := autoControlIrrigation_of_guards 20000 exDry rfl rfl rfl rfl
    (by decide) (by decide) (by decide)
  rw [if_pos hlt] at hauto
  rw [hcmd, hauto]
  refine ⟨rfl, rfl, rfl, rfl, rfl, rfl, rfl, ?_, ?_⟩
  · rw [(controlPump_stop_running "irrigation" 50000 _ rfl).1 rfl]
    rfl
  · rw [(controlPump_stop_running "irrigation" 50000 _ rfl).1 rfl]
    simp [exDry, boot, cooldownAfter, fsub_self, add32, EXTENDED_COOLDOWN, WORD]

/-! ## C8: automatic irrigation trigger -/

/-- C8. In every state with `currentMode = "auto"`, `pumpMode = "soil"`, the soil channel
valid, the pump idle, the water level at or above the threshold, the rest period elapsed
and no extended cooldown pending, `autoControlIrrigation` starts irrigation (pump running
in mode "irrigation" since `now`, `PUMP_PIN_1` HIGH) and records `soilPercent` as baseline
when `soilPercent < plantMinSoilMoisture`; otherwise (soil at or above the minimum, or
NaN) it leaves the state unchanged. -/
theorem auto_irrigation_trigger (now : Nat) (s : DeviceState)
    (hmode : s.currentMode = "auto") (hsel : s.pumpMode = "soil")
    (hvalid : s.analog_soil_sensor_is_connected = true) (hidle : s.isPumpRunning = false)
    (hwater : s.waterLevelLowThreshold ≤ s.currentWaterPercent)
    (hrest : 10000 ≤ sub32 now s.lastPumpStopTime)
    (hcool : s.extendedCooldownUntil ≤ now) :
    (∀ v : ℚ, s.soilPercent = some v → v < (s.plantMinSoilMoisture : ℚ) →
      autoControlIrrigation now s =
        { s with lastSoilBeforeIrrigation := some v, currentPumpMode := "irrigation",
                 isPumpRunning := true, pumpStartTime := now, pumpPin1 := true }) ∧
    (∀ v : ℚ, s.soilPercent = some v → (s.plantMinSoilMoisture : ℚ) ≤ v →
      autoControlIrrigation now s = s) ∧
    (s.soilPercent = none → autoControlIrrigation now s = s) := by
  have h := autoControlIrrigation_of_guards now s hmode hsel hvalid hidle
    (not_lt.mpr hwater) (not_lt.mpr hrest) (not_lt.mpr hcool)
  refine ⟨?_, ?_, ?_⟩
  · intro v hv hlt
    have hl : s.soilPercent.ltInt s.plantMinSoilMoisture = true := by
      rw [hv]; simp [Flt.ltInt, hlt]
    rw [h, if_pos hl, hv]
  · intro v hv hge
    have hl : ¬ s.soilPercent.ltInt s.plantMinSoilMoisture = true := by
      rw [hv]; simp [Flt.ltInt, hge]
    rw [h, if_neg hl]
  · intro hv
    have hl : ¬ s.soilPercent.ltInt s.plantMinSoilMoisture = true := by
      rw [hv]; simp [Flt.ltInt]
    rw [h, if_neg hl]

theorem auto_irrigation_trigger_witness :
    exDry.soilPercent = some 25 ∧ exDry.plantMinSoilMoisture = 40 ∧
    exDry.currentWaterPercent = 60 ∧ exDry.waterLevelLowThreshold = 20 ∧
    autoControlIrrigation 20000 exDry =
      { exDry with lastSoilBeforeIrrigation := some 25, currentPumpMode := "irrigation",
                   isPumpRunning := true, pumpStartTime := 20000, pumpPin1 := true } :=
  ⟨rfl, rfl, rfl, rfl,
    (auto_irrigation_trigger 20000 exDry rfl rfl rfl rfl (by decide) (by decide) (by decide)).1
      25 rfl (by simp [exDry, boot]; norm_num)⟩

/-! ## C9: soil calibration is monotonic -/

theorem wrap32_small (x : Int) (h0 : 0 ≤ x) (h1 : x < 2147483648) : wrap32 x = x := by
  unfold wrap32; omega

theorem wrap32_large (x : Int) (h0 : 2147483648 ≤ x) (h1 : x < 4294967296) :
    wrap32 x = x - 4294967296 := by
  unfold wrap32; omega

/-- Closed form of the clamped quotient for anchors `lo < hi` and a clamped raw value:
the exact quotient when `hi - lo` fits an `int`, and 0 or 100 when it wraps. -/
theorem soil_ratio_value (hi lo c : Int) (hlo : -2147483648 ≤ lo) (hhi : hi < 2147483648)
    (hlt : lo < hi) (hc1 : lo ≤ c) (hc2 : c ≤ hi) :
    constrain (if wrap32 (hi - lo) = 0 then none
        else some (100 * (wrap32 (hi - c) : ℚ) / (wrap32 (hi - lo) : ℚ))) 0 100
      = some (if hi - lo < 2147483648 then 100 * ((hi - c : Int) : ℚ) / ((hi - lo : Int) : ℚ)
              else if hi - c < 2147483648 then 0 else 100) := by
  by_cases hD : hi - lo < 2147483648
  · have wD : wrap32 (hi - lo) = hi - lo := wrap32_small _ (by omega) hD
    have wN : wrap32 (hi - c) = hi - c := wrap32_small _ (by omega) (by omega)
    have hDne : hi - lo ≠ 0 := by omega
    have hDpos : (0 : ℚ) < ((hi - lo : Int) : ℚ) := by exact_mod_cast (by omega : 0 < hi - lo)
    have hN0 : (0 : ℚ) ≤ ((hi - c : Int) : ℚ) := by exact_mod_cast (by omega : 0 ≤ hi - c)
    have hNle : ((hi - c : Int) : ℚ) ≤ ((hi - lo : Int) : ℚ) := by
      exact_mod_cast (by omega : hi - c ≤ hi - lo)
    have h0 : (0 : ℚ) ≤ 100 * ((hi - c : Int) : ℚ) / ((hi - lo : Int) : ℚ) :=
      div_nonneg (by positivity) hDpos.le
    have h100 : 100 * ((hi - c : Int) : ℚ) / ((hi - lo : Int) : ℚ) ≤ 100 := by
      rw [div_le_iff₀ hDpos]
      exact mul_le_mul_of_nonneg_left hNle (by norm_num)
    rw [wD, wN, if_neg hDne, if_pos hD]
    simp only [constrain]
    rw [if_neg (not_lt.mpr h0), if_neg (not_lt.mpr h100)]
  · have hD' : 2147483648 ≤ hi - lo := not_lt.mp hD
    have wD : wrap32 (hi - lo) = hi - lo - 4294967296 := wrap32_large _ hD' (by omega)
    have hDne : hi - lo - 4294967296 ≠ 0 := by omega
    have hDneg : ((hi - lo - 4294967296 : Int) : ℚ) < 0 := by
      exact_mod_cast (by omega : hi - lo - 4294967296 < 0)
    rw [wD, if_neg hDne, if_neg hD]
    by_cases hN : hi - c < 2147483648
    · have wN : wrap32 (hi - c) = hi - c := wrap32_small _ (by omega) hN
      have hN0 : (0 : ℚ) ≤ ((hi - c : Int) : ℚ) := by exact_mod_cast (by omega : 0 ≤ hi - c)
      have hq : 100 * ((hi - c : Int) : ℚ) / ((hi - lo - 4294967296 : Int) : ℚ) ≤ 0 :=
        div_nonpos_of_nonneg_of_nonpos (by positivity) hDneg.le
      rw [wN, if_pos hN]
      simp only [constrain]
      by_cases hz : 100 * ((hi - c : Int) : ℚ) / ((hi - lo - 4294967296 : Int) : ℚ) < 0
      · rw [if_pos hz]
      · have hz0 : 100 * ((hi - c : Int) : ℚ) / ((hi - lo - 4294967296 : Int) : ℚ) = 0 :=
          le_antisymm hq (not_lt.mp hz)
        rw [if_neg hz, hz0, if_neg (by norm_num)]
    · have hN' : 2147483648 ≤ hi - c := not_lt.mp hN
      have wN : wrap32 (hi - c) = hi - c - 4294967296 := wrap32_large _ hN' (by omega)
      have hNle : ((hi - c - 4294967296 : Int) : ℚ) ≤ ((hi - lo - 4294967296 : Int) : ℚ) := by
        exact_mod_cast (by omega : hi - c - 4294967296 ≤ hi - lo - 4294967296)
      have hq : 100 ≤ 100 * ((hi - c - 4294967296 : Int) : ℚ) / ((hi - lo - 4294967296 : Int) : ℚ) := by
        rw [le_div_iff_of_neg hDneg]
        exact mul_le_mul_of_nonneg_left hNle (by norm_num)
      rw [wN, if_neg hN]
      simp only [constrain]
      rw [if_neg (not_lt.mpr (le_trans (by norm_num) hq))]
      by_cases hz : 100 * ((hi - c - 4294967296 : Int) : ℚ) / ((hi - lo - 4294967296 : Int) : ℚ) > 100
      · rw [if_pos hz]
      · rw [if_neg hz, le_antisymm (not_lt.mp hz) hq]

/-- For anchors `lo < hi` the clamped quotient is a value `f c` in `[0, 100]` that does
not increase with `c`, with `f lo = 100` and `f hi = 0`. -/
theorem soil_ratio_props (hi lo : Int) (hlo : -2147483648 ≤ lo) (hhi : hi < 2147483648)
    (hlt : lo < hi) :
    ∃ f : Int → ℚ,
      (∀ c, lo ≤ c → c ≤ hi →
        constrain (if wrap32 (hi - lo) = 0 then none
          else some (100 * (wrap32 (hi - c) : ℚ) / (wrap32 (hi - lo) : ℚ))) 0 100 = some (f c) ∧
        0 ≤ f c ∧ f c ≤ 100) ∧
      f lo = 100 ∧ f hi = 0 ∧
      (∀ c1 c2, lo ≤ c1 → c1 ≤ c2 → c2 ≤ hi → f c2 ≤ f c1) := by
  refine ⟨fun c => if hi - lo < 2147483648 then 100 * ((hi - c : Int) : ℚ) / ((hi - lo : Int) : ℚ)
              else if hi - c < 2147483648 then 0 else 100, ?_, ?_, ?_, ?_⟩
  · intro c hc1 hc2
    refine ⟨soil_ratio_value hi lo c hlo hhi hlt hc1 hc2, ?_, ?_⟩
    · show (0 : ℚ) ≤ if hi - lo < 2147483648 then _ else _
      split_ifs with h1 h2
      · have hDpos : (0 : ℚ) < ((hi - lo : Int) : ℚ) := by exact_mod_cast (by omega : 0 < hi - lo)
        have hN0 : (0 : ℚ) ≤ ((hi - c : Int) : ℚ) := by exact_mod_cast (by omega : 0 ≤ hi - c)
        exact div_nonneg (by positivity) hDpos.le
      · exact le_refl 0
      · norm_num
    · show (if hi - lo < 2147483648 then _ else _) ≤ (100 : ℚ)
      split_ifs with h1 h2
      · have hDpos : (0 : ℚ) < ((hi - lo : Int) : ℚ) := by exact_mod_cast (by omega : 0 < hi - lo)
        have hNle : ((hi - c : Int) : ℚ) ≤ ((hi - lo : Int) : ℚ) := by
          exact_mod_cast (by omega : hi - c ≤ hi - lo)
        rw [div_le_iff₀ hDpos]
        exact mul_le_mul_of_nonneg_left hNle (by norm_num)
      · norm_num
      · exact le_refl 100
  · show (if hi - lo < 2147483648 then _ else _) = (100 : ℚ)
    split_ifs with h1
    · have hDne : ((hi - lo : Int) : ℚ) ≠ 0 := by exact_mod_cast (by omega : hi - lo ≠ 0)
      exact mul_div_cancel_right₀ 100 hDne
    · rfl
  · show (if hi - lo < 2147483648 then _ else _) = (0 : ℚ)
    split_ifs with h1 h2
    · simp
    · rfl
    · omega
  · intro c1 c2 h1 h12 h2
    show (if hi - lo < 2147483648 then _ else _) ≤ (if hi - lo < 2147483648 then _ else _)
    split_ifs with hD a b
    · have hDpos : (0 : ℚ) < ((hi - lo : Int) : ℚ) := by exact_mod_cast (by omega : 0 < hi - lo)
      have hN : ((hi - c2 : Int) : ℚ) ≤ ((hi - c1 : Int) : ℚ) := by
        exact_mod_cast (by omega : hi - c2 ≤ hi - c1)
      exact div_le_div_of_nonneg_right (mul_le_mul_of_nonneg_left hN (by norm_num)) hDpos.le
    · exact le_refl 0
    · norm_num
    · omega
    · exact le_refl 100

theorem soilPercentFromRaw_ordered (raw : Int) (s : DeviceState)
    (h : ¬ s.SOIL_RAW_WATER > s.SOIL_RAW_AIR) :
    soilPercentFromRaw raw s =
      (constrain (if wrap32 (s.SOIL_RAW_AIR - s.SOIL_RAW_WATER) = 0 then none
        else some (100 *
          (wrap32 (s.SOIL_RAW_AIR -
            (if (if raw < s.SOIL_RAW_WATER then s.SOIL_RAW_WATER else raw) > s.SOIL_RAW_AIR
              then s.SOIL_RAW_AIR
              else (if raw < s.SOIL_RAW_WATER then s.SOIL_RAW_WATER else raw))) : ℚ) /
          (wrap32 (s.SOIL_RAW_AIR - s.SOIL_RAW_WATER) : ℚ))) 0 100, s) := by
  unfold soilPercentFromRaw
  simp only [if_neg h]

theorem soilPercentFromRaw_swapped (raw : Int) (s : DeviceState)
    (h : s.SOIL_RAW_WATER > s.SOIL_RAW_AIR) :
    soilPercentFromRaw raw s =
      soilPercentFromRaw raw
        { s with SOIL_RAW_WATER := s.SOIL_RAW_AIR, SOIL_RAW_AIR := s.SOIL_RAW_WATER } := by
  have h' : ¬ s.SOIL_RAW_AIR > s.SOIL_RAW_WATER := by omega
  unfold soilPercentFromRaw
  simp only [if_pos h, if_neg h']

theorem clampRaw_props (lo hi raw : Int) (hle : lo ≤ hi) :
    lo ≤ (if (if raw < lo then lo else raw) > hi then hi else (if raw < lo then lo else raw)) ∧
    (if (if raw < lo then lo else raw) > hi then hi else (if raw < lo then lo else raw)) ≤ hi ∧
    (raw ≤ lo →
      (if (if raw < lo then lo else raw) > hi then hi else (if raw < lo then lo else raw)) = lo) ∧
    (hi ≤ raw →
      (if (if raw < lo then lo else raw) > hi then hi else (if raw < lo then lo else raw)) = hi) ∧
    (∀ raw', raw ≤ raw' →
      (if (if raw < lo then lo else raw) > hi then hi else (if raw < lo then lo else raw)) ≤
      (if (if raw' < lo then lo else raw') > hi then hi else (if raw' < lo then lo else raw'))) := by
  refine ⟨?_, ?_, ?_, ?_, ?_⟩
  · split_ifs <;> omega
  · split_ifs <;> omega
  · intro h; split_ifs <;> omega
  · intro h; split_ifs <;> omega
  · intro raw' h; split_ifs <;> omega

/-- For anchors already in order the calibration is a function `f` of the raw value with
values in `[0, 100]`, not increasing, 100 up to the water anchor and 0 from the air
anchor on; the state is returned as it is. -/
theorem soil_ordered_props (s : DeviceState) (hlo : -2147483648 ≤ s.SOIL_RAW_WATER)
    (hhi : s.SOIL_RAW_AIR < 2147483648) (hlt : s.SOIL_RAW_WATER < s.SOIL_RAW_AIR) :
    ∃ f : Int → ℚ,
      (∀ r, soilPercentFromRaw r s = (some (f r), s) ∧ 0 ≤ f r ∧ f r ≤ 100 ∧
        (r ≤ s.SOIL_RAW_WATER → f r = 100) ∧ (s.SOIL_RAW_AIR ≤ r → f r = 0)) ∧
      (∀ r1 r2, r1 ≤ r2 → f r2 ≤ f r1) := by
  obtain ⟨g, hg, hglo, hghi, hgmono⟩ :=
    soil_ratio_props s.SOIL_RAW_AIR s.SOIL_RAW_WATER hlo hhi hlt
  refine ⟨fun r => g (if (if r < s.SOIL_RAW_WATER then s.SOIL_RAW_WATER else r) > s.SOIL_RAW_AIR
      then s.SOIL_RAW_AIR else (if r < s.SOIL_RAW_WATER then s.SOIL_RAW_WATER else r)), ?_, ?_⟩
  · intro r
    obtain ⟨c1, c2, c3, c4, _⟩ := clampRaw_props s.SOIL_RAW_WATER s.SOIL_RAW_AIR r hlt.le
    obtain ⟨e1, e2, e3⟩ := hg _ c1 c2
    refine ⟨?_, e2, e3, ?_, ?_⟩
    · rw [soilPercentFromRaw_ordered r s (by omega), e1]
    · intro h
      show g _ = 100
      rw [c3 h, hglo]
    · intro h
      show g _ = 0
      rw [c4 h, hghi]
  · intro r1 r2 h12
    obtain ⟨c1, _, _, _, c5⟩ := clampRaw_props s.SOIL_RAW_WATER s.SOIL_RAW_AIR r1 hlt.le
    obtain ⟨_, d2, _, _, _⟩ := clampRaw_props s.SOIL_RAW_WATER s.SOIL_RAW_AIR r2 hlt.le
    exact hgmono _ _ c1 (c5 r2 h12) d2

/-- C9. For every pair of distinct 32-bit anchors, in either order, `soilPercentFromRaw`
leaves the anchors with `SOIL_RAW_AIR` the larger one; its result is a number in
`[0, 100]`, equal to 100 for every raw value at or below the water anchor and to 0 for
every raw value at or above the air anchor; and for raw values `r1 < r2` the percentage
for `r1` is at least the percentage for `r2`. -/
theorem soil_calibration_monotone (s : DeviceState)
    (hA : -2147483648 ≤ s.SOIL_RAW_AIR ∧ s.SOIL_RAW_AIR < 2147483648)
    (hW : -2147483648 ≤ s.SOIL_RAW_WATER ∧ s.SOIL_RAW_WATER < 2147483648)
    (hne : s.SOIL_RAW_AIR ≠ s.SOIL_RAW_WATER) :
    (∀ r : Int,
      (soilPercentFromRaw r s).2.SOIL_RAW_WATER < (soilPercentFromRaw r s).2.SOIL_RAW_AIR) ∧
    (∀ r : Int, ∃ p : ℚ, (soilPercentFromRaw r s).1 = some p ∧ 0 ≤ p ∧ p ≤ 100 ∧
      (r ≤ (soilPercentFromRaw r s).2.SOIL_RAW_WATER → p = 100) ∧
      ((soilPercentFromRaw r s).2.SOIL_RAW_AIR ≤ r → p = 0)) ∧
    (∀ r1 r2 : Int, r1 < r2 → ∃ p1 p2 : ℚ,
      (soilPercentFromRaw r1 s).1 = some p1 ∧ (soilPercentFromRaw r2 s).1 = some p2 ∧
      p2 ≤ p1) := by
  have main : ∀ t : DeviceState, -2147483648 ≤ t.SOIL_RAW_WATER → t.SOIL_RAW_AIR < 2147483648 →
      t.SOIL_RAW_WATER < t.SOIL_RAW_AIR → (∀ r, soilPercentFromRaw r s = soilPercentFromRaw r t) →
      (∀ r : Int,
        (soilPercentFromRaw r s).2.SOIL_RAW_WATER < (soilPercentFromRaw r s).2.SOIL_RAW_AIR) ∧
      (∀ r : Int, ∃ p : ℚ, (soilPercentFromRaw r s).1 = some p ∧ 0 ≤ p ∧ p ≤ 100 ∧
        (r ≤ (soilPercentFromRaw r s).2.SOIL_RAW_WATER → p = 100) ∧
        ((soilPercentFromRaw r s).2.SOIL_RAW_AIR ≤ r → p = 0)) ∧
      (∀ r1 r2 : Int, r1 < r2 → ∃ p1 p2 : ℚ,
        (soilPercentFromRaw r1 s).1 = some p1 ∧ (soilPercentFromRaw r2 s).1 = some p2 ∧
        p2 ≤ p1) := by
    intro t tlo thi tlt hst
    obtain ⟨f, hf, hmono⟩ := soil_ordered_props t tlo thi tlt
    refine ⟨?_, ?_, ?_⟩
    · intro r
      rw [hst r, (hf r).1]
      exact tlt
    · intro r
      obtain ⟨e, p0, p100, pw, pa⟩ := hf r
      refine ⟨f r, ?_, p0, p100, ?_, ?_⟩
      · rw [hst r, e]
      · rw [hst r, e]; exact pw
      · rw [hst r, e]; exact pa
    · intro r1 r2 h12
      refine ⟨f r1, f r2, ?_, ?_, hmono r1 r2 h12.le⟩
      · rw [hst r1, (hf r1).1]
      · rw [hst r2, (hf r2).1]
  by_cases hsw : s.SOIL_RAW_WATER > s.SOIL_RAW_AIR
  · exact main { s with SOIL_RAW_WATER := s.SOIL_RAW_AIR, SOIL_RAW_AIR := s.SOIL_RAW_WATER }
      hA.1 hW.2 hsw (fun r => soilPercentFromRaw_swapped r s hsw)
  · exact main s hW.1 hA.2 (by omega) (fun r => rfl)

theorem soil_calibration_monotone_witness :
    (soilPercentFromRaw 1000 boot).1 = some 100 ∧
    (soilPercentFromRaw 3500 boot).1 = some 0 ∧
    ∃ p1 p2 : ℚ, (soilPercentFromRaw 1500 boot).1 = some p1 ∧
      (soilPercentFromRaw 2500 boot).1 = some p2 ∧ p2 ≤ p1 := by
  have h := soil_calibration_monotone boot (by decide) (by decide) (by decide)
  refine ⟨?_, ?_, h.2.2 1500 2500 (by decide)⟩
  · obtain ⟨p, hp, _, _, hw, _⟩ := h.2.1 1000
    rw [hp, hw (by rw [soilPercentFromRaw_ordered 1000 boot (by decide)]; decide)]
  · obtain ⟨p, hp, _, _, _, ha⟩ := h.2.1 3500
    rw [hp, ha (by rw [soilPercentFromRaw_ordered 3500 boot (by decide)]; decide)]

/-! ## C10: soil calibration does not depend on the anchor entry order -/

/-- C10. For anchor values `a > w` and every raw value `r`, `soilPercentFromRaw` with the
anchors entered in swapped order (`SOIL_RAW_AIR = w`, `SOIL_RAW_WATER = a`) returns the
same percentage as with the anchors in order, and leaves the stored anchors in corrected
order (`SOIL_RAW_AIR = a`, `SOIL_RAW_WATER = w`), as the call with ordered anchors does. -/
theorem soil_calibration_order_independent (s : DeviceState) (a w r : Int) (h : a > w) :
    (soilPercentFromRaw r { s with SOIL_RAW_AIR := w, SOIL_RAW_WATER := a }).1 =
      (soilPercentFromRaw r { s with SOIL_RAW_AIR := a, SOIL_RAW_WATER := w }).1 ∧
    (soilPercentFromRaw r { s with SOIL_RAW_AIR := w, SOIL_RAW_WATER := a }).2.SOIL_RAW_AIR = a ∧
    (soilPercentFromRaw r { s with SOIL_RAW_AIR := w, SOIL_RAW_WATER := a }).2.SOIL_RAW_WATER = w ∧
    (soilPercentFromRaw r { s with SOIL_RAW_AIR := a, SOIL_RAW_WATER := w }).2.SOIL_RAW_AIR = a ∧
    (soilPercentFromRaw r { s with SOIL_RAW_AIR := a, SOIL_RAW_WATER := w }).2.SOIL_RAW_WATER = w := by
  have hsw := soilPercentFromRaw_swapped r { s with SOIL_RAW_AIR := w, SOIL_RAW_WATER := a } h
  have hord := soilPercentFromRaw_ordered r { s with SOIL_RAW_AIR := a, SOIL_RAW_WATER := w }
    (by show ¬ w > a; omega)
  have hsw' : soilPercentFromRaw r { s with SOIL_RAW_AIR := w, SOIL_RAW_WATER := a } =
      soilPercentFromRaw r { s with SOIL_RAW_AIR := a, SOIL_RAW_WATER := w } := hsw
  rw [hsw', hord]
  exact ⟨rfl, rfl, rfl, rfl, rfl⟩

theorem soil_calibration_order_independent_witness :
    (soilPercentFromRaw 2000 { boot with SOIL_RAW_AIR := 1300, SOIL_RAW_WATER := 3000 }).1 =
      (soilPercentFromRaw 2000 { boot with SOIL_RAW_AIR := 3000, SOIL_RAW_WATER := 1300 }).1 ∧
    (soilPercentFromRaw 2000
      { boot with SOIL_RAW_AIR := 1300, SOIL_RAW_WATER := 3000 }).2.SOIL_RAW_AIR = 3000 ∧
    (soilPercentFromRaw 2000
      { boot with SOIL_RAW_AIR := 1300, SOIL_RAW_WATER := 3000 }).2.SOIL_RAW_WATER = 1300 :=
  have h := soil_calibration_order_independent boot 3000 1300 2000 (by decide)
  ⟨h.1, h.2.1, h.2.2.1⟩

/-! ## The pump variables across one loop iteration -/

theorem pumpView_fetchPlantSettings (f : PlantFetch) (s : DeviceState) :
    pumpView (fetchPlantSettings f s) = pumpView s := by
  unfold fetchPlantSettings
  split_ifs <;> rfl

theorem pumpView_initFirebase (ready : Bool) (f : PlantFetch) (s : DeviceState) :
    pumpView (initFirebase ready f s) = pumpView s := by
  unfold initFirebase
  split_ifs
  · exact pumpView_fetchPlantSettings f _
  · rfl

theorem pumpView_soilPercentFromRaw (raw : Int) (s : DeviceState) :
    pumpView (soilPercentFromRaw raw s).2 = pumpView s := by
  by_cases h : s.SOIL_RAW_WATER > s.SOIL_RAW_AIR
  · rw [soilPercentFromRaw_swapped raw s h, soilPercentFromRaw_ordered _ _
      (by show ¬ s.SOIL_RAW_AIR > s.SOIL_RAW_WATER; omega)]
    rfl
  · rw [soilPercentFromRaw_ordered raw s h]

theorem pumpView_readXYMD02Sensor (resp : Option (Nat × Nat)) (s : DeviceState) :
    pumpView (readXYMD02Sensor resp s) = pumpView s := by
  unfold readXYMD02Sensor
  cases resp with
  | none => rfl
  | some p =>
    obtain ⟨a, b⟩ := p
    dsimp only
    split_ifs <;> rfl

theorem pumpView_readWaterLevelSensor (duration : Int) (s : DeviceState) :
    pumpView (readWaterLevelSensor duration s) = pumpView s := by
  unfold readWaterLevelSensor
  by_cases h : duration > 0
  · rw [if_pos h]
    dsimp only
    split_ifs <;> rfl
  · rw [if_neg h]
    rfl

theorem pumpView_readAndSendSensorData (i : SensorInputs) (s : DeviceState) :
    pumpView (readAndSendSensorData i s) = pumpView s := by
  unfold readAndSendSensorData
  split_ifs
  · rfl
  · dsimp only
    rw [pumpView_readWaterLevelSensor, pumpView_readXYMD02Sensor]
    split_ifs
    · exact pumpView_soilPercentFromRaw _ _
    · exact pumpView_soilPercentFromRaw _ _

theorem pumpView_loop_acquire (i : LoopInputs) (s : DeviceState) :
    pumpView (loop_acquire i s) = pumpView s := by
  have h1 : pumpView (if (!s.firebase_ready && i.wifiAtInit) = true
      then initFirebase i.firebaseReady i.firebasePlant s else s) = pumpView s := by
    split_ifs
    · exact pumpView_initFirebase _ _ _
    · rfl
  have h2 : ∀ x : DeviceState, pumpView (if sub32 i.currentMillis x.lastUpdate ≥ UPDATE_INTERVAL
      then { readAndSendSensorData i.sensors x with lastUpdate := i.currentMillis } else x)
      = pumpView x := by
    intro x
    split_ifs
    · exact pumpView_readAndSendSensorData i.sensors x
    · rfl
  have h3 : ∀ x : DeviceState, pumpView (if sub32 i.currentMillis x.lastHeartbeat ≥ HEARTBEAT_INTERVAL
      then { x with lastHeartbeat := i.currentMillis } else x) = pumpView x := by
    intro x
    split_ifs <;> rfl
  unfold loop_acquire
  exact (h3 _).trans ((h2 _).trans h1)

theorem pumpView_checkWiFiConnection (connected : Bool) (s y : DeviceState)
    (h : checkWiFiConnection connected s = some y) : pumpView y = pumpView s := by
  unfold checkWiFiConnection at h
  by_cases hc : (!connected) = true
  · rw [if_pos hc] at h
    dsimp only at h
    split_ifs at h
    rw [← Option.some.inj h]
    rfl
  · rw [if_neg hc] at h
    rw [← Option.some.inj h]
    rfl

theorem pumpView_loop_wifi (i : LoopInputs) (s x : DeviceState) (h : loop_wifi i s = some x) :
    pumpView x = pumpView s := by
  unfold loop_wifi at h
  split_ifs at h
  · cases hw : checkWiFiConnection i.wifiAtCheck s with
    | none => rw [hw] at h; cases h
    | some y =>
      rw [hw] at h
      have hy := pumpView_checkWiFiConnection _ _ y hw
      rw [← Option.some.inj h]
      exact hy
  · rw [← Option.some.inj h]

theorem pumpView_controlShade (action : String) (now : Nat) (s : DeviceState) :
    pumpView (controlShade action now s) = pumpView s := by
  unfold controlShade
  split_ifs <;> rfl

theorem pumpView_stopShadeMotor (now : Nat) (s : DeviceState) :
    pumpView (stopShadeMotor now s) = pumpView s := by
  unfold stopShadeMotor
  split_ifs <;> rfl

theorem pumpView_autoControlShade (now : Nat) (s : DeviceState) :
    pumpView (autoControlShade now s) = pumpView s := by
  unfold autoControlShade
  by_cases h1 : s.currentMode ≠ "auto"
  · rw [if_pos h1]
  · rw [if_neg h1]
    by_cases h2 : (!s.tempSensorConnected || !s.bh1750_ok) = true
    · rw [if_pos h2]
    · rw [if_neg h2]
      dsimp only
      split_ifs <;> first | rfl | exact pumpView_controlShade _ _ _

theorem pumpView_commandBlocks (b : Backend) (s : DeviceState) :
    pumpView (pumpModeCommand b (modeCommand b (plantCommand b s))) = pumpView s := by
  have h1 : pumpView (plantCommand b s) = pumpView s := by
    unfold plantCommand
    split
    · split_ifs
      · exact pumpView_fetchPlantSettings _ _
      · rfl
    · rfl
  have h2 : ∀ x, pumpView (modeCommand b x) = pumpView x := by
    intro x
    unfold modeCommand
    split
    · split_ifs <;> rfl
    · rfl
  have h3 : ∀ x, pumpView (pumpModeCommand b x) = pumpView x := by
    intro x
    unfold pumpModeCommand
    split
    · split_ifs <;> rfl
    · rfl
  exact (h3 _).trans ((h2 _).trans h1)

theorem pumpView_systemCommand (b : Backend) (s : DeviceState) :
    pumpView (systemCommand b s).2 = pumpView s := by
  unfold systemCommand
  split
  · split
    · split_ifs <;> rfl
    · rfl
  · split
    · split_ifs <;> rfl
    · rfl

theorem start_on_running (mode : String) (now : Nat) (s : DeviceState)
    (hrun : s.isPumpRunning = true) : controlPump mode "start" now s = s := by
  unfold controlPump
  rw [controlPumpTrace_start]
  split_ifs <;> rfl

theorem pumpView_stop_running (mode : String) (now : Nat) (s : DeviceState)
    (hrun : s.isPumpRunning = true) :
    pumpView (controlPump mode "stop" now s) = (false, "none", s.pumpStartTime, now, false, false) := by
  unfold controlPump controlPumpTrace
  rw [if_neg (by decide), if_pos rfl]
  by_cases hi : s.currentPumpMode = "irrigation"
  · simp [hrun, hi, pumpView]
  · by_cases hmi : s.currentPumpMode = "misting"
    · simp [hrun, hmi, pumpView]
    · simp [hrun, hi, hmi, pumpView]

theorem pumpView_pumpCommand_running (cmd : String) (now : Nat) (s : DeviceState)
    (hrun : s.isPumpRunning = true) :
    pumpView (pumpCommand cmd now s) = pumpView s ∨
    pumpView (pumpCommand cmd now s) = (false, "none", s.pumpStartTime, now, false, false) := by
  unfold pumpCommand
  split_ifs
  · left; rw [start_on_running _ _ _ hrun]
  · right; exact pumpView_stop_running _ _ _ hrun
  · left; rw [start_on_running _ _ _ hrun]
  · right; exact pumpView_stop_running _ _ _ hrun
  · left; rfl

theorem pumpView_checkCommands_running (b : Backend) (tPump tShade : Nat) (s : DeviceState)
    (hrun : s.isPumpRunning = true) :
    pumpView (checkCommands b tPump tShade s).2 = pumpView s ∨
    pumpView (checkCommands b tPump tShade s).2
      = (false, "none", s.pumpStartTime, tPump, false, false) := by
  unfold checkCommands
  split_ifs
  · left; rfl
  · dsimp only
    rw [pumpView_systemCommand]
    have hb := pumpView_commandBlocks b s
    have hrun' : (pumpModeCommand b (modeCommand b (plantCommand b s))).isPumpRunning = true := by
      have := congrArg (fun v => v.1) hb
      exact this.trans hrun
    have hstart : (pumpModeCommand b (modeCommand b (plantCommand b s))).pumpStartTime
        = s.pumpStartTime := congrArg (fun v => v.2.2.1) hb
    have hshade : ∀ x : DeviceState,
        pumpView (match b.shade_command with
          | some cmd => controlShade cmd tShade x
          | none => x) = pumpView x := by
      intro x
      cases b.shade_command with
      | none => rfl
      | some cmd => exact pumpView_controlShade _ _ _
    rw [hshade]
    cases b.pump_command with
    | none => left; exact hb
    | some cmd =>
      rcases pumpView_pumpCommand_running cmd tPump _ hrun' with h | h
      · left; exact h.trans hb
      · right; rw [← hstart]; exact h

theorem pumpView_autoControlIrrigation (now : Nat) (s : DeviceState) :
    pumpView (autoControlIrrigation now s) = pumpView s ∨
    (s.isPumpRunning = false ∧ ¬ sub32 now s.lastPumpStopTime < 10000 ∧
      pumpView (autoControlIrrigation now s)
        = (true, "irrigation", now, s.lastPumpStopTime, true, s.pumpPin2)) := by
  unfold autoControlIrrigation
  split_ifs with h1 h2 h3 h4 h5 h6 h7 h8
  all_goals first
    | (left; rfl)
    | (right
       have hidle : s.isPumpRunning = false := by simpa using h4
       have hrest : ¬ sub32 now s.lastPumpStopTime < 10000 := by simpa [PUMP_REST_PERIOD] using h7
       refine ⟨hidle, hrest, ?_⟩
       rw [start_irrigation_ok now { s with lastSoilBeforeIrrigation := s.soilPercent }
         h5 hidle hrest h6]
       rfl)

theorem pumpView_autoControlMisting (now : Nat) (s : DeviceState) :
    pumpView (autoControlMisting now s) = pumpView s ∨
    (s.isPumpRunning = false ∧ ¬ sub32 now s.lastPumpStopTime < 10000 ∧
      pumpView (autoControlMisting now s)
        = (true, "misting", now, s.lastPumpStopTime, s.pumpPin1, true)) := by
  unfold autoControlMisting
  split_ifs with h1 h2 h3 h4 h5 h6 h7 h8
  all_goals first
    | (left; rfl)
    | (right
       have hidle : s.isPumpRunning = false := by simpa using h4
       have hrest : ¬ sub32 now s.lastPumpStopTime < 10000 := by simpa [PUMP_REST_PERIOD] using h7
       refine ⟨hidle, hrest, ?_⟩
       rw [start_misting_ok now { s with lastHumidityBeforeMisting := s.currentHumidity }
         h5 hidle hrest h6]
       rfl)

theorem autoControlMisting_running (now : Nat) (s : DeviceState)
    (hrun : s.isPumpRunning = true) : autoControlMisting now s = s := by
  unfold autoControlMisting
  split_ifs <;> rfl

theorem pumpView_loop_policy (i : LoopInputs) (x : DeviceState) :
    pumpView (loop_policy i x) = pumpView x ∨
    (x.isPumpRunning = false ∧ ¬ sub32 i.tAutoIrrigation x.lastPumpStopTime < 10000 ∧
      pumpView (loop_policy i x)
        = (true, "irrigation", i.tAutoIrrigation, x.lastPumpStopTime, true, x.pumpPin2)) ∨
    (x.isPumpRunning = false ∧ ¬ sub32 i.tAutoMisting x.lastPumpStopTime < 10000 ∧
      pumpView (loop_policy i x)
        = (true, "misting", i.tAutoMisting, x.lastPumpStopTime, x.pumpPin1, true)) := by
  unfold loop_policy
  dsimp only
  rw [pumpView_stopShadeMotor]
  split_ifs
  · have ha := pumpView_autoControlShade i.tAutoShade x
    simp only [pumpView, Prod.mk.injEq] at ha
    obtain ⟨a1, a2, a3, a4, a5, a6⟩ := ha
    rcases pumpView_autoControlIrrigation i.tAutoIrrigation (autoControlShade i.tAutoShade x)
      with hb | ⟨hidle, hrest, hb⟩
    · have hb' := hb
      simp only [pumpView, Prod.mk.injEq] at hb'
      obtain ⟨b1, b2, b3, b4, b5, b6⟩ := hb'
      rcases pumpView_autoControlMisting i.tAutoMisting
          (autoControlIrrigation i.tAutoIrrigation (autoControlShade i.tAutoShade x))
        with hc | ⟨hidle, hrest, hc⟩
      · left
        rw [hc, hb]
        simp only [pumpView, a1, a2, a3, a4, a5, a6]
      · right; right
        refine ⟨?_, ?_, ?_⟩
        · rw [← a1, ← b1]; exact hidle
        · rw [← a4, ← b4]; exact hrest
        · rw [hc, b4, a4, b5, a5]
    · right; left
      have hrun : (autoControlIrrigation i.tAutoIrrigation
          (autoControlShade i.tAutoShade x)).isPumpRunning = true := congrArg (fun v => v.1) hb
      rw [autoControlMisting_running _ _ hrun]
      refine ⟨?_, ?_, ?_⟩
      · rw [← a1]; exact hidle
      · rw [← a4]; exact hrest
      · rw [hb, a4, a6]
  · left; rfl

theorem pumpCheck_by_view (currentMillis now : Nat) (m : DeviceState) :
    (m.isPumpRunning = false → m.pumpPin1 = false → m.pumpPin2 = false →
      (loop_pumpCheck currentMillis now m).isPumpRunning = false ∧
      (loop_pumpCheck currentMillis now m).pumpPin1 = false ∧
      (loop_pumpCheck currentMillis now m).pumpPin2 = false) ∧
    (m.isPumpRunning = true →
      (m.currentPumpMode = "irrigation" ∧ 30000 ≤ sub32 currentMillis m.pumpStartTime) ∨
      (m.currentPumpMode = "misting" ∧ 15000 ≤ sub32 currentMillis m.pumpStartTime) →
      (loop_pumpCheck currentMillis now m).isPumpRunning = false ∧
      (loop_pumpCheck currentMillis now m).pumpPin1 = false ∧
      (loop_pumpCheck currentMillis now m).pumpPin2 = false) := by
  constructor
  · intro h1 h2 h3
    unfold loop_pumpCheck
    rw [if_neg (by simp [h1])]
    exact ⟨h1, h2, h3⟩
  · intro hrun hel
    have hv := pumpView_stop_running m.currentPumpMode now m hrun
    simp only [pumpView, Prod.mk.injEq] at hv
    have hcheck : loop_pumpCheck currentMillis now m =
        controlPump m.currentPumpMode "stop" now m := by
      unfold loop_pumpCheck
      rcases hel with ⟨hm, he⟩ | ⟨hm, he⟩
      · simp [hrun, hm, IRRIGATION_DURATION, he]
      · simp [hrun, hm, MISTING_DURATION, he]
    rw [hcheck]
    exact ⟨hv.1, hv.2.2.2.2.1, hv.2.2.2.2.2⟩

theorem elapsed_after_restart (T0 Tp Tx : Nat) (h1 : T0 ≤ Tp) (h2 : Tp ≤ Tx)
    (h3 : Tx ≤ T0 + 4294937296) (hrest : ¬ sub32 (millis Tx) (millis Tp) < 10000) :
    30000 ≤ sub32 (millis T0) (millis Tx) := by
  unfold sub32 millis WORD at *
  omega

/-- The forced stop seen from the start of the iteration. Let the counter readings of the
iteration come from uptimes `T0 ≤ Tp ≤ Ti ≤ Tm` (top of the loop, pump command,
`autoControlIrrigation`, `autoControlMisting`) that span less than `2^32 - 30000` ms. If
the pump runs when the iteration starts and `currentMillis - pumpStartTime` has reached the
mode's maximum, every iteration that completes ends with the pump idle and both outputs
LOW, whatever the backend sends and the sensors read in between. -/
theorem forced_stop_from_iteration_start (i : LoopInputs) (s s' : DeviceState)
    (T0 Tp Ti Tm : Nat)
    (h0 : i.currentMillis = millis T0) (hp : i.tPumpCommand = millis Tp)
    (hi : i.tAutoIrrigation = millis Ti) (hm : i.tAutoMisting = millis Tm)
    (h0p : T0 ≤ Tp) (hpi : Tp ≤ Ti) (him : Ti ≤ Tm) (hspan : Tm ≤ T0 + 4294937296)
    (hrun : s.isPumpRunning = true)
    (helapsed : (s.currentPumpMode = "irrigation" ∧ 30000 ≤ sub32 i.currentMillis s.pumpStartTime) ∨
                (s.currentPumpMode = "misting" ∧ 15000 ≤ sub32 i.currentMillis s.pumpStartTime))
    (hloop : loop i s = some s') :
    s'.isPumpRunning = false ∧ s'.pumpPin1 = false ∧ s'.pumpPin2 = false := by
  unfold loop at hloop
  cases hup : loop_upToPumpCheck i s with
  | none => rw [hup] at hloop; cases hloop
  | some m =>
    rw [hup] at hloop
    rw [← Option.some.inj hloop]
    obtain ⟨hidleCase, hrunCase⟩ := pumpCheck_by_view i.currentMillis i.tPumpCheck m
    -- the state `m` at the check, traced back through the iteration
    unfold loop_upToPumpCheck at hup
    cases hw : loop_wifi i s with
    | none => rw [hw] at hup; cases hup
    | some s1 =>
      rw [hw] at hup
      dsimp only at hup
      have v1 : pumpView (loop_acquire i s1) = pumpView s :=
        (pumpView_loop_acquire i s1).trans (pumpView_loop_wifi i s s1 hw)
      have v1' := v1
      simp only [pumpView, Prod.mk.injEq] at v1'
      obtain ⟨a1, a2, a3, a4, a5, a6⟩ := v1'
      have hc := pumpView_checkCommands_running i.backend i.tPumpCommand i.tShadeCommand
        (loop_acquire i s1) (a1.trans hrun)
      have hm2 : ∃ s2, m = loop_policy i s2 ∧
          (pumpView s2 = pumpView s ∨
           pumpView s2 = (false, "none", s.pumpStartTime, i.tPumpCommand, false, false)) := by
        rcases hcc : checkCommands i.backend i.tPumpCommand i.tShadeCommand (loop_acquire i s1)
          with ⟨act, s2⟩
        rw [hcc] at hup hc
        refine ⟨s2, ?_, ?_⟩
        · cases act <;> first | (cases hup; done) | exact (Option.some.inj hup).symm
        · rcases hc with h | h
          · left; exact h.trans v1
          · right; rw [← a3]; exact h
      obtain ⟨s2, rfl, hs2⟩ := hm2
      rcases hs2 with hs2 | hs2
      · -- the pump variables reach the policies as they were
        have hs2' := hs2
        simp only [pumpView, Prod.mk.injEq] at hs2'
        obtain ⟨b1, b2, b3, b4, b5, b6⟩ := hs2'
        rcases pumpView_loop_policy i s2 with h | ⟨hidle, _, _⟩ | ⟨hidle, _, _⟩
        · simp only [pumpView, Prod.mk.injEq] at h
          obtain ⟨c1, c2, c3, c4, c5, c6⟩ := h
          apply hrunCase (c1.trans (b1.trans hrun))
          rw [c2, b2, c3, b3]
          exact helapsed
        · rw [b1, hrun] at hidle; cases hidle
        · rw [b1, hrun] at hidle; cases hidle
      · -- the pump was stopped by a command at reading `tPumpCommand`
        have hs2' := hs2
        simp only [pumpView, Prod.mk.injEq] at hs2'
        obtain ⟨b1, b2, b3, b4, b5, b6⟩ := hs2'
        rcases pumpView_loop_policy i s2 with h | ⟨_, hrest, h⟩ | ⟨_, hrest, h⟩
        · simp only [pumpView, Prod.mk.injEq] at h
          obtain ⟨c1, c2, c3, c4, c5, c6⟩ := h
          exact hidleCase (c1.trans b1) (c5.trans b5) (c6.trans b6)
        · simp only [pumpView, Prod.mk.injEq] at h
          obtain ⟨c1, c2, c3, c4, c5, c6⟩ := h
          apply hrunCase c1
          left
          refine ⟨c2, ?_⟩
          rw [c3, h0, hi]
          rw [b4, hi, hp] at hrest
          exact elapsed_after_restart T0 Tp Ti h0p hpi (by omega) hrest
        · simp only [pumpView, Prod.mk.injEq] at h
          obtain ⟨c1, c2, c3, c4, c5, c6⟩ := h
          apply hrunCase c1
          right
          refine ⟨c2, ?_⟩
          rw [c3, h0, hm]
          rw [b4, hm, hp] at hrest
          have := elapsed_after_restart T0 Tp Tm h0p (by omega) hspan hrest
          omega


theorem forced_stop_from_iteration_start_example :
    (loop exLoopInputs exIrrigating).isSome = true ∧
    ∀ s', loop exLoopInputs exIrrigating = some s' →
      s'.isPumpRunning = false ∧ s'.pumpPin1 = false ∧ s'.pumpPin2 = false :=
  ⟨by decide, fun s' h =>
    forced_stop_from_iteration_start exLoopInputs exIrrigating s' 40000 40001 40004 40005
      rfl rfl rfl rfl (by decide) (by decide) (by decide) (by decide) rfl
      (Or.inl ⟨rfl, by decide⟩) h⟩

/-! ## C11: seeding and fixed point of the exponential filter -/

theorem readXYMD02Sensor_temperature (s : DeviceState) (rawHumidity rawTemperature : Nat)
    (h : (rawTemperature : ℚ) / 10 > -40 ∧ (rawTemperature : ℚ) / 10 < 80) :
    (readXYMD02Sensor (some (rawHumidity, rawTemperature)) s).temperatureFiltered
      = emaStep s.temperatureFiltered ((rawTemperature : ℚ) / 10) ∧
    (readXYMD02Sensor (some (rawHumidity, rawTemperature)) s).currentTemperature
      = emaStep s.temperatureFiltered ((rawTemperature : ℚ) / 10) ∧
    (readXYMD02Sensor (some (rawHumidity, rawTemperature)) s).tempSensorConnected = true := by
  unfold readXYMD02Sensor
  dsimp only
  rw [if_pos h]
  split_ifs <;> exact ⟨rfl, rfl, rfl⟩

theorem readXYMD02Sensor_humidity (s : DeviceState) (rawHumidity rawTemperature : Nat)
    (h : (rawHumidity : ℚ) / 10 ≥ 0 ∧ (rawHumidity : ℚ) / 10 ≤ 100) :
    (readXYMD02Sensor (some (rawHumidity, rawTemperature)) s).humidityFiltered
      = emaStep s.humidityFiltered ((rawHumidity : ℚ) / 10) ∧
    (readXYMD02Sensor (some (rawHumidity, rawTemperature)) s).currentHumidity
      = emaStep s.humidityFiltered ((rawHumidity : ℚ) / 10) ∧
    (readXYMD02Sensor (some (rawHumidity, rawTemperature)) s).humiditySensorConnected = true := by
  unfold readXYMD02Sensor
  dsimp only
  rw [if_pos h]
  split_ifs <;> exact ⟨rfl, rfl, rfl⟩

theorem emaStep_cases (x : ℚ) :
    emaStep none x = some x ∧ emaStep (some x) x = some x ∧
    ∀ p : ℚ, emaStep (some p) x = some (1 / 2 * x + 1 / 2 * p) := by
  refine ⟨rfl, ?_, ?_⟩
  · show some (alpha * x + (1 - alpha) * x) = some x
    rw [alpha]; congr 1; ring
  · intro p
    show some (alpha * x + (1 - alpha) * p) = some (1 / 2 * x + 1 / 2 * p)
    rw [alpha]; congr 1; ring

/-- C11. In `readXYMD02Sensor`, for every successful read and every in-range temperature
sample `x` (the register value divided by 10, above -40 and below 80): if
`temperatureFiltered` is NaN the filtered value after the read is exactly `x`; if it
already equals `x` it stays `x`; and for an initialised accumulator `p` it becomes
`0.5 * x + 0.5 * p` in exact rational arithmetic; `currentTemperature` takes the same
value. The same holds for every in-range humidity sample (from 0 to 100) and
`humidityFiltered` / `currentHumidity`, whatever the other channel's sample is. -/
theorem ema_seed_and_fixed_point (s : DeviceState) (rawHumidity rawTemperature : Nat) :
    (((rawTemperature : ℚ) / 10 > -40 ∧ (rawTemperature : ℚ) / 10 < 80) →
      (s.temperatureFiltered = none →
        (readXYMD02Sensor (some (rawHumidity, rawTemperature)) s).temperatureFiltered
          = some ((rawTemperature : ℚ) / 10)) ∧
      (s.temperatureFiltered = some ((rawTemperature : ℚ) / 10) →
        (readXYMD02Sensor (some (rawHumidity, rawTemperature)) s).temperatureFiltered
          = some ((rawTemperature : ℚ) / 10)) ∧
      (∀ p : ℚ, s.temperatureFiltered = some p →
        (readXYMD02Sensor (some (rawHumidity, rawTemperature)) s).temperatureFiltered
          = some (1 / 2 * ((rawTemperature : ℚ) / 10) + 1 / 2 * p)) ∧
      (readXYMD02Sensor (some (rawHumidity, rawTemperature)) s).currentTemperature
        = (readXYMD02Sensor (some (rawHumidity, rawTemperature)) s).temperatureFiltered) ∧
    (((rawHumidity : ℚ) / 10 ≥ 0 ∧ (rawHumidity : ℚ) / 10 ≤ 100) →
      (s.humidityFiltered = none →
        (readXYMD02Sensor (some (rawHumidity, rawTemperature)) s).humidityFiltered
          = some ((rawHumidity : ℚ) / 10)) ∧
      (s.humidityFiltered = some ((rawHumidity : ℚ) / 10) →
        (readXYMD02Sensor (some (rawHumidity, rawTemperature)) s).humidityFiltered
          = some ((rawHumidity : ℚ) / 10)) ∧
      (∀ p : ℚ, s.humidityFiltered = some p →
        (readXYMD02Sensor (some (rawHumidity, rawTemperature)) s).humidityFiltered
          = some (1 / 2 * ((rawHumidity : ℚ) / 10) + 1 / 2 * p)) ∧
      (readXYMD02Sensor (some (rawHumidity, rawTemperature)) s).currentHumidity
        = (readXYMD02Sensor (some (rawHumidity, rawTemperature)) s).humidityFiltered) := by
  constructor
  · intro h
    obtain ⟨e1, e2, _⟩ := readXYMD02Sensor_temperature s rawHumidity rawTemperature h
    obtain ⟨c1, c2, c3⟩ := emaStep_cases ((rawTemperature : ℚ) / 10)
    rw [e1, e2]
    refine ⟨?_, ?_, ?_, rfl⟩
    · intro hn; rw [hn, c1]
    · intro hx; rw [hx, c2]
    · intro p hp; rw [hp, c3 p]
  · intro h
    obtain ⟨e1, e2, _⟩ := readXYMD02Sensor_humidity s rawHumidity rawTemperature h
    obtain ⟨c1, c2, c3⟩ := emaStep_cases ((rawHumidity : ℚ) / 10)
    rw [e1, e2]
    refine ⟨?_, ?_, ?_, rfl⟩
    · intro hn; rw [hn, c1]
    · intro hx; rw [hx, c2]
    · intro p hp; rw [hp, c3 p]

theorem ema_seed_and_fixed_point_witness :
    (readXYMD02Sensor (some (550, 253)) boot).temperatureFiltered = some (253 / 10 : ℚ) ∧
    (readXYMD02Sensor (some (550, 253)) boot).humidityFiltered = some (55 : ℚ) ∧
    (readXYMD02Sensor (some (550, 253))
      { boot with temperatureFiltered := some 20 }).temperatureFiltered
        = some (453 / 20 : ℚ) :=
  ⟨(((ema_seed_and_fixed_point boot 550 253).1 (by norm_num)).1 rfl).trans (by norm_num),
   (((ema_seed_and_fixed_point boot 550 253).2 (by norm_num)).1 rfl).trans (by norm_num),
   (((ema_seed_and_fixed_point { boot with temperatureFiltered := some 20 } 550 253).1
      (by norm_num)).2.2.1 20 rfl).trans (by norm_num)⟩

/-! ## C12: shade debouncing -/

theorem elapsed_reading (T1 T3 : Nat) (h1 : T1 + 10000 ≤ T3) (h2 : T3 < T1 + 4294967296) :
    sub32 (millis T3) (millis T1) ≥ SHADE_MOTOR_DURATION := by
  unfold sub32 millis WORD SHADE_MOTOR_DURATION
  omega

/-- C12. From the idle retracted state, `controlShade("deploy")` at uptime `T1` energises
the motor forward (`SHADE_MOTOR_PIN_1` HIGH, `SHADE_MOTOR_PIN_2` LOW, `isShadeMoving`,
`shadeMotorStartTime` the reading at `T1`); a second `controlShade("deploy")` at any
reading changes nothing; the following `stopShadeMotor` at an uptime `T3` at least
10000 ms after `T1` (and less than one counter period after it, which readings
`shadeMotorStartTime + 10000 ≤ t3 < 2^32` always are) ends with
`shadeDeployed = true`, `isShadeMoving = false` and both motor outputs LOW, and a further
`stopShadeMotor` changes nothing more. -/
theorem shade_deploy_debounced (s : DeviceState) (T1 T3 t2 t4 : Nat)
    (hidle : s.isShadeMoving = false) (hretracted : s.shadeDeployed = false)
    (hT : T1 + 10000 ≤ T3) (hperiod : T3 < T1 + 4294967296) :
    controlShade "deploy" (millis T1) s =
      { s with shadePin1 := true, shadePin2 := false, isShadeMoving := true,
               shadeMotorStartTime := millis T1 } ∧
    controlShade "deploy" t2 (controlShade "deploy" (millis T1) s)
      = controlShade "deploy" (millis T1) s ∧
    stopShadeMotor (millis T3) (controlShade "deploy" t2 (controlShade "deploy" (millis T1) s)) =
      { s with shadePin1 := false, shadePin2 := false, isShadeMoving := false,
               shadeDeployed := true, shadeMotorStartTime := millis T1 } ∧
    stopShadeMotor t4
      (stopShadeMotor (millis T3)
        (controlShade "deploy" t2 (controlShade "deploy" (millis T1) s))) =
      stopShadeMotor (millis T3) (controlShade "deploy" t2 (controlShade "deploy" (millis T1) s)) := by
  have h1 : controlShade "deploy" (millis T1) s =
      { s with shadePin1 := true, shadePin2 := false, isShadeMoving := true,
               shadeMotorStartTime := millis T1 } := by
    unfold controlShade
    rw [if_neg (by simp [hidle]), if_pos ⟨rfl, hretracted⟩]
  have h2 : controlShade "deploy" t2 (controlShade "deploy" (millis T1) s)
      = controlShade "deploy" (millis T1) s := by
    rw [h1]
    unfold controlShade
    rw [if_pos rfl]
  have h3 : stopShadeMotor (millis T3) (controlShade "deploy" (millis T1) s) =
      { s with shadePin1 := false, shadePin2 := false, isShadeMoving := false,
               shadeDeployed := true, shadeMotorStartTime := millis T1 } := by
    rw [h1]
    unfold stopShadeMotor
    rw [if_neg (by simp), if_pos (elapsed_reading T1 T3 hT hperiod)]
    simp [hretracted]
  refine ⟨h1, h2, ?_, ?_⟩
  · rw [h2, h3]
  · rw [h2, h3]
    unfold stopShadeMotor
    rw [if_pos (by simp)]

theorem shade_deploy_debounced_witness :
    stopShadeMotor 30500 (controlShade "deploy" 20100 (controlShade "deploy" 20000 boot)) =
      { boot with shadeDeployed := true, shadeMotorStartTime := 20000 } ∧
    controlShade "deploy" 20100 (controlShade "deploy" 20000 boot)
      = controlShade "deploy" 20000 boot :=
  have h := shade_deploy_debounced boot 20000 30500 20100 31000 rfl rfl (by decide) (by decide)
  ⟨h.2.2.1, h.2.1⟩

/-! ## C13: redundant or unknown shade requests -/

/-- C13. `controlShade("deploy")` on an idle deployed shade, `controlShade("retract")` on
an idle retracted shade, `controlShade(a)` for any `a` while the shade is moving, and
`controlShade(a)` for any `a` other than "deploy" and "retract" return the state as it
is: `isShadeMoving`, `shadeDeployed`, `shadeMotorStartTime`, both motor outputs and
everything else are unchanged. -/
theorem shade_noop_requests (now : Nat) (s : DeviceState) :
    (s.isShadeMoving = false → s.shadeDeployed = true → controlShade "deploy" now s = s) ∧
    (s.isShadeMoving = false → s.shadeDeployed = false → controlShade "retract" now s = s) ∧
    (∀ a : String, s.isShadeMoving = true → controlShade a now s = s) ∧
    (∀ a : String, a ≠ "deploy" → a ≠ "retract" → controlShade a now s = s) := by
  refine ⟨?_, ?_, ?_, ?_⟩
  · intro h1 h2
    unfold controlShade
    rw [if_neg (by simp [h1]), if_neg (by simp [h2]), if_neg (by simp)]
  · intro h1 h2
    unfold controlShade
    rw [if_neg (by simp [h1]), if_neg (by simp), if_neg (by simp [h2])]
  · intro a h1
    unfold controlShade
    rw [if_pos h1]
  · intro a h1 h2
    unfold controlShade
    split_ifs with c1 c2 c3
    · rfl
    · exact absurd c2.1 h1
    · exact absurd c3.1 h2
    · rfl

theorem shade_noop_requests_witness :
    controlShade "retract" 20000 boot = boot ∧
    controlShade "stop" 20000 boot = boot ∧
    controlShade "retract" 21000 (controlShade "deploy" 20000 boot)
      = controlShade "deploy" 20000 boot :=
  ⟨(shade_noop_requests 20000 boot).2.1 rfl rfl,
   (shade_noop_requests 20000 boot).2.2.2 "stop" (by decide) (by decide),
   (shade_noop_requests 21000 (controlShade "deploy" 20000 boot)).2.2.1 "retract" (by decide)⟩

/-! ## C14: shade deploy decision -/

/-- C14, as stated, fails: in auto mode with the shade retracted and idle, a valid
temperature of 35 °C (above the maximum 30) does not deploy the shade when the light
sensor is invalid, and a valid 2000 lux (above the maximum 1500) does not deploy it when
the temperature channel is invalid. -/
theorem shade_needs_both_channels :
    (exHotNoLight.currentMode = "auto" ∧ exHotNoLight.shadeDeployed = false ∧
      exHotNoLight.isShadeMoving = false ∧ exHotNoLight.tempSensorConnected = true ∧
      exHotNoLight.currentTemperature.gt exHotNoLight.plantMaxTemperature = true ∧
      autoControlShade 20000 exHotNoLight = exHotNoLight) ∧
    (exBrightNoTemperature.currentMode = "auto" ∧ exBrightNoTemperature.shadeDeployed = false ∧
      exBrightNoTemperature.isShadeMoving = false ∧ exBrightNoTemperature.bh1750_ok = true ∧
      exBrightNoTemperature.currentLightLevel.gtInt exBrightNoTemperature.plantMaxLightIntensity
        = true ∧
      autoControlShade 20000 exBrightNoTemperature = exBrightNoTemperature) := by
  refine ⟨⟨rfl, rfl, rfl, rfl, ?_, by decide⟩, ⟨rfl, rfl, rfl, rfl, ?_, by decide⟩⟩
  · simp [exHotNoLight, boot, Flt.gt]
    norm_num
  · simp [exBrightNoTemperature, boot, Flt.gtInt]
    norm_num

/-- C14, amended. In auto mode with the shade retracted and not moving,
`autoControlShade` commands a deploy (motor energised forward at `now`) if and only if
the temperature channel and the light channel are both valid and
`currentTemperature > plantMaxTemperature` or `currentLightLevel > plantMaxLightIntensity`
(comparisons false on NaN); otherwise, in particular when either channel is invalid, it
leaves the state unchanged. -/
theorem shade_deploy_decision (now : Nat) (s : DeviceState)
    (hmode : s.currentMode = "auto") (hretracted : s.shadeDeployed = false)
    (hidle : s.isShadeMoving = false) :
    ((s.tempSensorConnected = true ∧ s.bh1750_ok = true ∧
        (s.currentTemperature.gt s.plantMaxTemperature = true ∨
         s.currentLightLevel.gtInt s.plantMaxLightIntensity = true)) →
      autoControlShade now s =
        { s with shadePin1 := true, shadePin2 := false, isShadeMoving := true,
                 shadeMotorStartTime := now }) ∧
    (¬ (s.tempSensorConnected = true ∧ s.bh1750_ok = true ∧
        (s.currentTemperature.gt s.plantMaxTemperature = true ∨
         s.currentLightLevel.gtInt s.plantMaxLightIntensity = true)) →
      autoControlShade now s = s) ∧
    ((autoControlShade now s).isShadeMoving = true ↔
      (s.tempSensorConnected = true ∧ s.bh1750_ok = true ∧
        (s.currentTemperature.gt s.plantMaxTemperature = true ∨
         s.currentLightLevel.gtInt s.plantMaxLightIntensity = true))) := by
  have hdeploy : controlShade "deploy" now s =
      { s with shadePin1 := true, shadePin2 := false, isShadeMoving := true,
               shadeMotorStartTime := now } := by
    unfold controlShade
    rw [if_neg (by simp [hidle]), if_pos ⟨rfl, hretracted⟩]
  have hyes : (s.tempSensorConnected = true ∧ s.bh1750_ok = true ∧
        (s.currentTemperature.gt s.plantMaxTemperature = true ∨
         s.currentLightLevel.gtInt s.plantMaxLightIntensity = true)) →
      autoControlShade now s =
        { s with shadePin1 := true, shadePin2 := false, isShadeMoving := true,
                 shadeMotorStartTime := now } := by
    rintro ⟨ht, hl, hhigh⟩
    unfold autoControlShade
    rw [if_neg (by simp [hmode]), if_neg (by simp [ht, hl])]
    dsimp only
    rw [if_pos (by rcases hhigh with h | h <;> simp [h, hretracted, hidle]), hdeploy]
  have hno : ¬ (s.tempSensorConnected = true ∧ s.bh1750_ok = true ∧
        (s.currentTemperature.gt s.plantMaxTemperature = true ∨
         s.currentLightLevel.gtInt s.plantMaxLightIntensity = true)) →
      autoControlShade now s = s := by
    intro hn
    unfold autoControlShade
    rw [if_neg (by simp [hmode])]
    by_cases hv : (!s.tempSensorConnected || !s.bh1750_ok) = true
    · rw [if_pos hv]
    · rw [if_neg hv]
      dsimp only
      have hv' : s.tempSensorConnected = true ∧ s.bh1750_ok = true := by
        simpa using hv
      have hlow : ¬ (s.currentTemperature.gt s.plantMaxTemperature = true ∨
         s.currentLightLevel.gtInt s.plantMaxLightIntensity = true) :=
        fun h => hn ⟨hv'.1, hv'.2, h⟩
      rw [not_or] at hlow
      rw [if_neg (by simp [hlow.1, hlow.2]), if_neg (by simp [hretracted])]
  refine ⟨hyes, hno, ?_⟩
  constructor
  · intro hmov
    by_contra hn
    rw [hno hn, hidle] at hmov
    cases hmov
  · intro h
    rw [hyes h]

theorem shade_deploy_decision_witness :
    autoControlShade 20000 exHot =
      { exHot with shadePin1 := true, shadePin2 := false, isShadeMoving := true,
                   shadeMotorStartTime := 20000 } ∧
    autoControlShade 20000 exHotNoLight = exHotNoLight :=
  ⟨(shade_deploy_decision 20000 exHot rfl rfl rfl).1
      ⟨rfl, rfl, Or.inl (by simp [exHot, boot, Flt.gt]; norm_num)⟩,
   (shade_deploy_decision 20000 exHotNoLight rfl rfl rfl).2.1
      (by intro h; exact absurd h.2.1 (by decide))⟩

/-! ## C15: rejected samples -/

theorem readXYMD02Sensor_rejected_temperature (s : DeviceState) (rawHumidity rawTemperature : Nat)
    (h : ¬ ((rawTemperature : ℚ) / 10 > -40 ∧ (rawTemperature : ℚ) / 10 < 80)) :
    (readXYMD02Sensor (some (rawHumidity, rawTemperature)) s).temperatureFiltered
      = s.temperatureFiltered ∧
    (readXYMD02Sensor (some (rawHumidity, rawTemperature)) s).currentTemperature
      = s.currentTemperature ∧
    (readXYMD02Sensor (some (rawHumidity, rawTemperature)) s).tempSensorConnected
      = s.tempSensorConnected := by
  unfold readXYMD02Sensor
  dsimp only
  rw [if_neg h]
  split_ifs <;> exact ⟨rfl, rfl, rfl⟩

theorem readXYMD02Sensor_rejected_humidity (s : DeviceState) (rawHumidity rawTemperature : Nat)
    (h : ¬ ((rawHumidity : ℚ) / 10 ≥ 0 ∧ (rawHumidity : ℚ) / 10 ≤ 100)) :
    (readXYMD02Sensor (some (rawHumidity, rawTemperature)) s).humidityFiltered
      = s.humidityFiltered ∧
    (readXYMD02Sensor (some (rawHumidity, rawTemperature)) s).currentHumidity
      = s.currentHumidity ∧
    (readXYMD02Sensor (some (rawHumidity, rawTemperature)) s).humiditySensorConnected
      = s.humiditySensorConnected := by
  unfold readXYMD02Sensor
  dsimp only
  rw [if_neg h]
  split_ifs <;> exact ⟨rfl, rfl, rfl⟩

/-- C15 fails on the code in its flag part. With both channels valid (25 °C, 55 %), a
successful bus read delivers the registers 65486 (a sub-zero reading in two's complement,
taken by the code as 6548.6) and 1001 (100.1 %): both samples are out of range, the values are kept as the
claim says, but `tempSensorConnected` and `humiditySensorConnected` stay true. The
ultrasonic channel, in contrast, clears its flag on an out-of-range distance. -/
theorem rejected_sample_keeps_flag :
    ¬ (((65486 : Nat) : ℚ) / 10 > -40 ∧ ((65486 : Nat) : ℚ) / 10 < 80) ∧
    ¬ (((1001 : Nat) : ℚ) / 10 ≥ 0 ∧ ((1001 : Nat) : ℚ) / 10 ≤ 100) ∧
    (readXYMD02Sensor (some (1001, 65486)) exClimate).currentTemperature = some 25 ∧
    (readXYMD02Sensor (some (1001, 65486)) exClimate).temperatureFiltered = some 25 ∧
    (readXYMD02Sensor (some (1001, 65486)) exClimate).tempSensorConnected = true ∧
    (readXYMD02Sensor (some (1001, 65486)) exClimate).currentHumidity = some 55 ∧
    (readXYMD02Sensor (some (1001, 65486)) exClimate).humidityFiltered = some 55 ∧
    (readXYMD02Sensor (some (1001, 65486)) exClimate).humiditySensorConnected = true ∧
    (readWaterLevelSensor 20000
      { exClimate with waterLevelSensorConnected := true }).waterLevelSensorConnected = false := by
  have hT : ¬ (((65486 : Nat) : ℚ) / 10 > -40 ∧ ((65486 : Nat) : ℚ) / 10 < 80) := by norm_num
  have hH : ¬ (((1001 : Nat) : ℚ) / 10 ≥ 0 ∧ ((1001 : Nat) : ℚ) / 10 ≤ 100) := by norm_num
  obtain ⟨t1, t2, t3⟩ := readXYMD02Sensor_rejected_temperature exClimate 1001 65486 hT
  obtain ⟨u1, u2, u3⟩ := readXYMD02Sensor_rejected_humidity exClimate 1001 65486 hH
  refine ⟨hT, hH, t2.trans rfl, t1.trans rfl, t3.trans rfl, u2.trans rfl, u1.trans rfl,
    u3.trans rfl, ?_⟩
  unfold readWaterLevelSensor
  rw [if_pos (by decide)]
  dsimp only
  rw [if_neg (by norm_num)]

/-! ## C16: manual mode gates the policy -/

/-- C16. In every state with `currentMode` different from "auto", `autoControlShade`,
`autoControlIrrigation` and `autoControlMisting` each return the state as it is: shade
flags, pump flags, pump mode, timers, baselines, counters, all four outputs and everything
else are unchanged, whatever the sensor values, the plant thresholds and the counter
readings are. -/
theorem manual_mode_gates_policy (t1 t2 t3 : Nat) (s : DeviceState)
    (hmanual : s.currentMode ≠ "auto") :
    autoControlShade t1 s = s ∧ autoControlIrrigation t2 s = s ∧ autoControlMisting t3 s = s := by
  refine ⟨?_, ?_, ?_⟩
  · unfold autoControlShade
    rw [if_pos hmanual]
  · unfold autoControlIrrigation
    rw [if_pos hmanual]
  · unfold autoControlMisting
    rw [if_pos hmanual]

theorem manual_mode_gates_policy_witness :
    autoControlShade 20000 { exHot with currentMode := "manual" }
      = { exHot with currentMode := "manual" } ∧
    autoControlIrrigation 20000 { exDry with currentMode := "manual" }
      = { exDry with currentMode := "manual" } ∧
    autoControlMisting 20000 { exDry with currentMode := "manual" }
      = { exDry with currentMode := "manual" } :=
  ⟨(manual_mode_gates_policy 20000 20000 20000 { exHot with currentMode := "manual" }
      (by decide)).1,
   (manual_mode_gates_policy 20000 20000 20000 { exDry with currentMode := "manual" }
      (by decide)).2.1,
   (manual_mode_gates_policy 20000 20000 20000 { exDry with currentMode := "manual" }
      (by decide)).2.2⟩

/-! ## C17: system-command deduplication and the restart it triggers -/

theorem systemCommand_timestamped (b : Backend) (cmd ts : String) (s : DeviceState)
    (hobj : b.system_command_object = some cmd) (hts : b.system_command_timestamp = some ts) :
    systemCommand b s =
      if ts ≠ s.lastTimestamp then
        (if cmd = "restart" then SystemAction.restart
          else if cmd = "factory_reset" then SystemAction.factoryReset
          else SystemAction.recorded,
         { s with lastTimestamp := ts })
      else (SystemAction.skippedDuplicate, s) := by
  unfold systemCommand
  rw [hobj, hts]
  dsimp only
  split_ifs <;> rfl

theorem systemCommand_acted_iff (b : Backend) (cmd ts : String) (s : DeviceState)
    (hobj : b.system_command_object = some cmd) (hts : b.system_command_timestamp = some ts) :
    ((systemCommand b s).1.acted = true ↔ ts ≠ s.lastTimestamp) ∧
    (ts ≠ s.lastTimestamp → (systemCommand b s).2 = { s with lastTimestamp := ts }) ∧
    (ts = s.lastTimestamp → (systemCommand b s).2 = s) ∧
    (systemCommand b s).2.lastTimestamp = ts := by
  rw [systemCommand_timestamped b cmd ts s hobj hts]
  by_cases h : ts ≠ s.lastTimestamp
  · rw [if_pos h]
    refine ⟨⟨fun _ => h, fun _ => ?_⟩, fun _ => rfl, fun e => absurd e h, rfl⟩
    show SystemAction.acted _ = true
    split_ifs <;> rfl
  · rw [if_neg h]
    have h' : ts = s.lastTimestamp := not_not.mp h
    refine ⟨⟨fun e => ?_, fun e => absurd e h⟩, fun e => absurd e h, fun _ => rfl, h'.symm⟩
    simp [SystemAction.acted] at e

theorem afterSystemCommand_timestamped (b : Backend) (cmd ts : String) (s : DeviceState)
    (hobj : b.system_command_object = some cmd) (hts : b.system_command_timestamp = some ts) :
    afterSystemCommand (systemCommand b s) =
      if ts ≠ s.lastTimestamp then
        (if cmd = "restart" ∨ cmd = "factory_reset" then boot
          else { s with lastTimestamp := ts })
      else s := by
  rw [systemCommand_timestamped b cmd ts s hobj hts]
  by_cases h : ts ≠ s.lastTimestamp
  · rw [if_pos h, if_pos h]
    by_cases h1 : cmd = "restart"
    · rw [if_pos h1, if_pos (Or.inl h1)]
      rfl
    · by_cases h2 : cmd = "factory_reset"
      · rw [if_neg h1, if_pos h2, if_pos (Or.inr h2)]
        rfl
      · rw [if_neg h1, if_neg h2, if_neg (by simp [h1, h2])]
        rfl
  · rw [if_neg h, if_neg h]
    rfl

theorem systemPolls_settled (b : Backend) (cmd ts : String)
    (hobj : b.system_command_object = some cmd) (hts : b.system_command_timestamp = some ts)
    (n : Nat) (s : DeviceState) (hlast : s.lastTimestamp = ts) :
    systemPolls b n s = (0, s) := by
  induction n with
  | zero => rfl
  | succ k ih =>
    obtain ⟨h1, _, _, _⟩ := systemCommand_acted_iff b cmd ts s hobj hts
    have hstate : afterSystemCommand (systemCommand b s) = s := by
      rw [afterSystemCommand_timestamped b cmd ts s hobj hts, if_neg (not_not.mpr hlast.symm)]
    have hact : (systemCommand b s).1.acted = false := by
      cases hc : (systemCommand b s).1.acted with
      | false => rfl
      | true => exact absurd hlast.symm (h1.mp hc)
    show ((if (systemCommand b s).1.acted = true then 1 else 0)
        + (systemPolls b k (afterSystemCommand (systemCommand b s))).1,
        (systemPolls b k (afterSystemCommand (systemCommand b s))).2) = (0, s)
    rw [hstate, ih, hact]
    rfl

/-- A timestamped command that does not restart the device (any value other than
`"restart"` and `"factory_reset"`) is acted on at most once over any number of reads:
exactly once if its timestamp was new, never if it was not. -/
theorem systemPolls_without_restart (b : Backend) (cmd ts : String)
    (hobj : b.system_command_object = some cmd) (hts : b.system_command_timestamp = some ts)
    (h1 : cmd ≠ "restart") (h2 : cmd ≠ "factory_reset") (n : Nat) (s : DeviceState) :
    systemPolls b (n + 1) s =
      (if ts = s.lastTimestamp then 0 else 1, { s with lastTimestamp := ts }) := by
  obtain ⟨ha, _, _, _⟩ := systemCommand_acted_iff b cmd ts s hobj hts
  show ((if (systemCommand b s).1.acted = true then 1 else 0)
      + (systemPolls b n (afterSystemCommand (systemCommand b s))).1,
      (systemPolls b n (afterSystemCommand (systemCommand b s))).2) = _
  rw [afterSystemCommand_timestamped b cmd ts s hobj hts]
  by_cases h : ts = s.lastTimestamp
  · have hact : ¬ (systemCommand b s).1.acted = true := fun hc => (ha.mp hc) h
    rw [if_neg hact, if_pos h, if_neg (not_not.mpr h),
      systemPolls_settled b cmd ts hobj hts n s h.symm]
    have hs : ({ s with lastTimestamp := ts } : DeviceState) = s := by rw [h]
    rw [hs]
    rfl
  · rw [if_pos (ha.mpr h), if_neg h, if_pos h, if_neg (by simp [h1, h2]),
      systemPolls_settled b cmd ts hobj hts n { s with lastTimestamp := ts } rfl]
    rfl

/-- A timestamped `"restart"` or `"factory_reset"` command with a non-empty timestamp is
acted on at every read, as often as the device reads it: each time the handler restarts
the device, `lastTimestamp` starts again at `""`, and the command is still there. -/
theorem systemPolls_with_restart (b : Backend) (cmd ts : String)
    (hobj : b.system_command_object = some cmd) (hts : b.system_command_timestamp = some ts)
    (hcmd : cmd = "restart" ∨ cmd = "factory_reset") (hne : ts ≠ "")
    (n : Nat) (s : DeviceState) (hnew : ts ≠ s.lastTimestamp) :
    (systemPolls b n s).1 = n := by
  induction n generalizing s with
  | zero => rfl
  | succ k ih =>
    obtain ⟨ha, _, _, _⟩ := systemCommand_acted_iff b cmd ts s hobj hts
    show (if (systemCommand b s).1.acted = true then 1 else 0)
      + (systemPolls b k (afterSystemCommand (systemCommand b s))).1 = k + 1
    rw [afterSystemCommand_timestamped b cmd ts s hobj hts, if_pos (ha.mpr hnew), if_pos hnew,
      if_pos hcmd, ih boot hne]
    omega

/-- C17. The backend holds the timestamped system command `"restart"` with timestamp
`"1761800000"` and the device `exDry` has not seen that timestamp. The handler acts on
the command and records the timestamp, and the branch it takes restarts the device; in
the restarted program `lastTimestamp` is `""` again, so the full `checkCommands` after
`initFirebase` acts on the very same command and restarts again. Over five consecutive
reads of the unchanged command the handler acts five times, for `"restart"` and for
`"factory_reset"` alike, where deduplication allows one; a command that does not restart
the device (`"status"`) is acted on once in five reads. -/
theorem restart_command_applied_at_every_boot :
    (systemCommand (exSystemCommand "restart" "1761800000") exDry).1 = .restart ∧
    (systemCommand (exSystemCommand "restart" "1761800000") exDry).2.lastTimestamp
      = "1761800000" ∧
    (afterSystemCommand (systemCommand (exSystemCommand "restart" "1761800000") exDry))
      = boot ∧
    boot.lastTimestamp = "" ∧
    (checkCommands (exSystemCommand "restart" "1761800000") 5000 5000
      (initFirebase true (exSystemCommand "restart" "1761800000").plant boot)).1 = .restart ∧
    (systemPolls (exSystemCommand "restart" "1761800000") 5 exDry).1 = 5 ∧
    (systemPolls (exSystemCommand "factory_reset" "1761800000") 5 exDry).1 = 5 ∧
    (systemPolls (exSystemCommand "status" "1761800000") 5 exDry).1 = 1 := by
  refine ⟨by decide, by decide, by decide, rfl, by decide, ?_, ?_, ?_⟩
  · exact systemPolls_with_restart _ "restart" "1761800000" rfl rfl (Or.inl rfl) (by decide) 5
      exDry (by decide)
  · exact systemPolls_with_restart _ "factory_reset" "1761800000" rfl rfl (Or.inr rfl)
      (by decide) 5 exDry (by decide)
  · rw [systemPolls_without_restart _ "status" "1761800000" rfl rfl (by decide) (by decide) 4
      exDry]
    decide

/-! ## C18: stop accounting -/

theorem controlPump_stop_irrigation (mode : String) (t : Nat) (s : DeviceState)
    (hrun : s.isPumpRunning = true) (hmode : s.currentPumpMode = "irrigation") :
    controlPump mode "stop" t s =
      { s with
        pumpPin1 := false, pumpPin2 := false,
        totalIrrigationRuntime := add32 s.totalIrrigationRuntime (sub32 t s.pumpStartTime / 1000),
        irrigationCycleCount := s.irrigationCycleCount + 1,
        extendedCooldownUntil :=
          cooldownAfter s.lastSoilBeforeIrrigation s.soilPercent t s.extendedCooldownUntil,
        isPumpRunning := false, currentPumpMode := "none", lastPumpStopTime := t } := by
  unfold controlPump controlPumpTrace
  rw [if_neg (by decide), if_pos rfl, if_neg (by simp [hrun])]
  dsimp only
  rw [if_pos hmode]

theorem controlPump_stop_misting (mode : String) (t : Nat) (s : DeviceState)
    (hrun : s.isPumpRunning = true) (hmode : s.currentPumpMode = "misting") :
    controlPump mode "stop" t s =
      { s with
        pumpPin1 := false, pumpPin2 := false,
        totalMistingRuntime := add32 s.totalMistingRuntime (sub32 t s.pumpStartTime / 1000),
        mistingCycleCount := s.mistingCycleCount + 1,
        extendedCooldownUntil :=
          cooldownAfter s.lastHumidityBeforeMisting s.currentHumidity t s.extendedCooldownUntil,
        isPumpRunning := false, currentPumpMode := "none", lastPumpStopTime := t } := by
  have hne : ¬ s.currentPumpMode = "irrigation" := by rw [hmode]; decide
  unfold controlPump controlPumpTrace
  rw [if_neg (by decide), if_pos rfl, if_neg (by simp [hrun])]
  dsimp only
  rw [if_neg hne, if_pos hmode]

theorem controlPump_stop_mode_irrelevant (m m' : String) (t : Nat) (s : DeviceState) :
    controlPump m "stop" t s = controlPump m' "stop" t s := by
  have h : ¬ "stop" = "start" := by decide
  unfold controlPump controlPumpTrace
  rw [if_neg h, if_neg h]

theorem controlPump_stop_not_running (m : String) (t : Nat) (s : DeviceState)
    (hidle : s.isPumpRunning = false) : controlPump m "stop" t s = s := by
  unfold controlPump controlPumpTrace
  rw [if_neg (by decide), if_pos rfl, if_pos (by simp [hidle])]

theorem runtime_without_wrap (total start t : Nat) (h1 : start ≤ t) (h2 : t < 4294967296)
    (h3 : total + (t - start) / 1000 < 4294967296) :
    add32 total (sub32 t start / 1000) = total + (t - start) / 1000 := by
  unfold add32 sub32 WORD
  have e : (t + (4294967296 - start % 4294967296)) % 4294967296 = t - start := by omega
  rw [e]
  exact Nat.mod_eq_of_lt h3

/-- C18. A stop on a running pump at reading `t` is booked on the active mode
`currentPumpMode`, not on the `mode` argument: for an irrigation cycle
`irrigationCycleCount` grows by 1 and `totalIrrigationRuntime` by the whole seconds of the
32-bit difference `t - pumpStartTime` (as a 32-bit sum; the plain sum
`total + (t - pumpStartTime) / 1000` when nothing wraps), the misting counters are
unchanged, and symmetrically for a misting cycle; `lastPumpStopTime` becomes `t`,
`isPumpRunning` false and `currentPumpMode` "none". `controlPump(m, "stop")` yields the same
state for every `m`, and a stop on an idle pump changes nothing. -/
theorem stop_accounting (m m' : String) (t : Nat) (s : DeviceState) :
    (s.isPumpRunning = true → s.currentPumpMode = "irrigation" →
      (controlPump m "stop" t s).irrigationCycleCount = s.irrigationCycleCount + 1 ∧
      (controlPump m "stop" t s).totalIrrigationRuntime
        = (s.totalIrrigationRuntime + sub32 t s.pumpStartTime / 1000) % 4294967296 ∧
      (s.pumpStartTime ≤ t → t < 4294967296 →
        s.totalIrrigationRuntime + (t - s.pumpStartTime) / 1000 < 4294967296 →
        (controlPump m "stop" t s).totalIrrigationRuntime
          = s.totalIrrigationRuntime + (t - s.pumpStartTime) / 1000) ∧
      (controlPump m "stop" t s).mistingCycleCount = s.mistingCycleCount ∧
      (controlPump m "stop" t s).totalMistingRuntime = s.totalMistingRuntime) ∧
    (s.isPumpRunning = true → s.currentPumpMode = "misting" →
      (controlPump m "stop" t s).mistingCycleCount = s.mistingCycleCount + 1 ∧
      (controlPump m "stop" t s).totalMistingRuntime
        = (s.totalMistingRuntime + sub32 t s.pumpStartTime / 1000) % 4294967296 ∧
      (s.pumpStartTime ≤ t → t < 4294967296 →
        s.totalMistingRuntime + (t - s.pumpStartTime) / 1000 < 4294967296 →
        (controlPump m "stop" t s).totalMistingRuntime
          = s.totalMistingRuntime + (t - s.pumpStartTime) / 1000) ∧
      (controlPump m "stop" t s).irrigationCycleCount = s.irrigationCycleCount ∧
      (controlPump m "stop" t s).totalIrrigationRuntime = s.totalIrrigationRuntime) ∧
    (s.isPumpRunning = true →
      (controlPump m "stop" t s).lastPumpStopTime = t ∧
      (controlPump m "stop" t s).isPumpRunning = false ∧
      (controlPump m "stop" t s).currentPumpMode = "none" ∧
      (controlPump m "stop" t s).pumpPin1 = false ∧
      (controlPump m "stop" t s).pumpPin2 = false) ∧
    controlPump m "stop" t s = controlPump m' "stop" t s ∧
    (s.isPumpRunning = false → controlPump m "stop" t s = s) := by
  refine ⟨?_, ?_, ?_, controlPump_stop_mode_irrelevant m m' t s,
    controlPump_stop_not_running m t s⟩
  · intro hrun hmode
    rw [controlPump_stop_irrigation m t s hrun hmode]
    refine ⟨rfl, rfl, ?_, rfl, rfl⟩
    intro h1 h2 h3
    exact runtime_without_wrap _ _ _ h1 h2 h3
  · intro hrun hmode
    rw [controlPump_stop_misting m t s hrun hmode]
    refine ⟨rfl, rfl, ?_, rfl, rfl⟩
    intro h1 h2 h3
    exact runtime_without_wrap _ _ _ h1 h2 h3
  · intro hrun
    have hv := pumpView_stop_running m t s hrun
    simp only [pumpView, Prod.mk.injEq] at hv
    exact ⟨hv.2.2.2.1, hv.1, hv.2.1, hv.2.2.2.2.1, hv.2.2.2.2.2⟩

theorem stop_accounting_witness :
    (controlPump "misting" "stop" 40000 exIrrigating).irrigationCycleCount = 1 ∧
    (controlPump "misting" "stop" 40000 exIrrigating).totalIrrigationRuntime = 30 ∧
    (controlPump "misting" "stop" 40000 exIrrigating).mistingCycleCount = 0 ∧
    (controlPump "misting" "stop" 40000 exIrrigating).totalMistingRuntime = 0 ∧
    controlPump "misting" "stop" 40000 exIrrigating
      = controlPump "irrigation" "stop" 40000 exIrrigating ∧
    controlPump "irrigation" "stop" 40000 boot = boot :=
  have h := stop_accounting "misting" "irrigation" 40000 exIrrigating
  have hb := stop_accounting "irrigation" "misting" 40000 boot
  ⟨(h.1 rfl rfl).1, (h.1 rfl rfl).2.2.1 (by decide) (by decide) (by decide),
   (h.1 rfl rfl).2.2.2.1, (h.1 rfl rfl).2.2.2.2, h.2.2.2.1, hb.2.2.2.2 rfl⟩

/-! ## C19: no premature forced stop -/

theorem exDryAuto_upToPumpCheck :
    loop_upToPumpCheck exLoopInputs exDryAuto =
      some { exDryAuto with
             lastSoilBeforeIrrigation := some 25, currentPumpMode := "irrigation",
             isPumpRunning := true, pumpStartTime := 40004, pumpPin1 := true } := by
  have h1 : loop_wifi exLoopInputs exDryAuto = some exDryAuto := by decide
  have h2 : loop_acquire exLoopInputs exDryAuto = exDryAuto := by decide
  have h3 : checkCommands exLoopInputs.backend exLoopInputs.tPumpCommand
      exLoopInputs.tShadeCommand exDryAuto = (.nothing, exDryAuto) := by decide
  have hshade : autoControlShade exLoopInputs.tAutoShade exDryAuto = exDryAuto := by decide
  have hlt : exDryAuto.soilPercent.ltInt exDryAuto.plantMinSoilMoisture = true := by
    simp [exDryAuto, exDry, boot, Flt.ltInt]
    norm_num
  have hirr : autoControlIrrigation exLoopInputs.tAutoIrrigation exDryAuto =
      { exDryAuto with
        lastSoilBeforeIrrigation := some 25, currentPumpMode := "irrigation",
        isPumpRunning := true, pumpStartTime := 40004, pumpPin1 := true } := by
    have h := autoControlIrrigation_of_guards 40004 exDryAuto rfl rfl rfl rfl
      (by decide) (by decide) (by decide)
    rw [if_pos hlt] at h
    exact h
  have hmist : autoControlMisting exLoopInputs.tAutoMisting
      { exDryAuto with
        lastSoilBeforeIrrigation := some 25, currentPumpMode := "irrigation",
        isPumpRunning := true, pumpStartTime := 40004, pumpPin1 := true } =
      { exDryAuto with
        lastSoilBeforeIrrigation := some 25, currentPumpMode := "irrigation",
        isPumpRunning := true, pumpStartTime := 40004, pumpPin1 := true } :=
    autoControlMisting_running _ _ rfl
  have hpolicy : loop_policy exLoopInputs exDryAuto =
      { exDryAuto with
        lastSoilBeforeIrrigation := some 25, currentPumpMode := "irrigation",
        isPumpRunning := true, pumpStartTime := 40004, pumpPin1 := true } := by
    unfold loop_policy
    dsimp only
    rw [if_pos (by decide), hshade, hirr, hmist]
    unfold stopShadeMotor
    rw [if_pos (by decide)]
  unfold loop_upToPumpCheck
  rw [h1]
  dsimp only
  rw [h2, h3]
  dsimp only
  rw [hpolicy]

/-- C19 fails on the code. (a) Manual mode, iteration sampled at `currentMillis` 40000:
the command `irrigation_start` is handled at reading 40001 and starts the pump; the
forced-stop check of the same iteration computes `currentMillis - pumpStartTime` as the
32-bit value 4294967295, at least 30000, and stops the pump at reading 40007, after
6 ms. (b) Auto mode, same iteration without a command: `autoControlIrrigation` starts the
pump at 40004 with baseline 25 %, the check stops it at 40007, and the stop, finding no
improvement, arms the 30-minute extended cooldown. -/
theorem forced_stop_premature :
    sub32 exLoopStartCommand.currentMillis 40001 = 4294967295 ∧
    (controlPump "irrigation" "start" 40001 exDryManual).isPumpRunning = true ∧
    loop exLoopStartCommand exDryManual =
      some { exDryManual with
             irrigationCycleCount := 1, pumpStartTime := 40001, lastPumpStopTime := 40007 } ∧
    loop exLoopInputs exDryAuto =
      some { exDryAuto with
             irrigationCycleCount := 1, pumpStartTime := 40004, lastPumpStopTime := 40007,
             lastSoilBeforeIrrigation := some 25, extendedCooldownUntil := 1840007 } := by
  refine ⟨by decide, by decide, by decide, ?_⟩
  unfold loop
  rw [exDryAuto_upToPumpCheck]
  show some (loop_pumpCheck 40000 40007 _) = _
  congr 1
  unfold loop_pumpCheck
  rw [if_pos rfl]
  dsimp only
  rw [if_pos (by decide), controlPump_stop_irrigation _ _ _ rfl rfl]
  simp [exDryAuto, exDry, boot, cooldownAfter, fsub_self, add32, sub32, EXTENDED_COOLDOWN, WORD]

/-- Away from the defect: for a pump whose `pumpStartTime` was read at an uptime `Ts` not
later than the iteration's sample `T0` (and less than one counter period before it), the
forced-stop check stops the pump only if it has run for at least the mode's maximum. -/
theorem forced_stop_not_premature_for_earlier_start (T0 Ts now : Nat) (m : DeviceState)
    (hstart : m.pumpStartTime = millis Ts) (h1 : Ts ≤ T0) (h2 : T0 < Ts + 4294967296)
    (hrun : m.isPumpRunning = true)
    (hstopped : (loop_pumpCheck (millis T0) now m).isPumpRunning = false) :
    (m.currentPumpMode = "irrigation" → 30000 ≤ T0 - Ts) ∧
    (m.currentPumpMode ≠ "irrigation" → 15000 ≤ T0 - Ts) := by
  have hsub : sub32 (millis T0) (millis Ts) = T0 - Ts := by
    unfold sub32 millis WORD
    omega
  unfold loop_pumpCheck at hstopped
  rw [if_pos hrun] at hstopped
  dsimp only at hstopped
  rw [hstart, hsub] at hstopped
  constructor
  · intro hm
    rw [if_pos hm] at hstopped
    by_contra hlt
    rw [if_neg (by simpa [IRRIGATION_DURATION] using hlt), hrun] at hstopped
    cases hstopped
  · intro hm
    rw [if_neg hm] at hstopped
    by_contra hlt
    rw [if_neg (by simpa [MISTING_DURATION] using hlt), hrun] at hstopped
    cases hstopped

/-! ## C20: the automatic path and the start guards -/

theorem autoControlMisting_of_guards (now : Nat) (s : DeviceState)
    (hmode : s.currentMode = "auto") (hsel : s.pumpMode = "humidity")
    (hvalid : s.humiditySensorConnected = true) (hidle : s.isPumpRunning = false)
    (hwater : ¬ s.currentWaterPercent < s.waterLevelLowThreshold)
    (hrest : ¬ sub32 now s.lastPumpStopTime < 10000) (hcool : ¬ now < s.extendedCooldownUntil) :
    autoControlMisting now s =
      if s.currentHumidity.ltInt s.plantMinHumidity = true then
        { s with lastHumidityBeforeMisting := s.currentHumidity, currentPumpMode := "misting",
                 isPumpRunning := true, pumpStartTime := now, pumpPin2 := true }
      else s := by
  unfold autoControlMisting
  rw [if_neg (by simp [hmode]), if_neg (by simp [hsel]), if_neg (by simp [hvalid]),
    if_neg (by simp [hidle]), if_neg hwater, if_neg hcool,
    if_neg (by simpa [PUMP_REST_PERIOD] using hrest)]
  split_ifs with h
  · exact start_misting_ok now { s with lastHumidityBeforeMisting := s.currentHumidity }
      hwater hidle hrest hcool
  · rfl

theorem autoControlIrrigation_cases (now : Nat) (s : DeviceState) :
    autoControlIrrigation now s = s ∨
    autoControlIrrigation now s =
      { s with lastSoilBeforeIrrigation := s.soilPercent, currentPumpMode := "irrigation",
               isPumpRunning := true, pumpStartTime := now, pumpPin1 := true } := by
  unfold autoControlIrrigation
  split_ifs with h1 h2 h3 h4 h5 h6 h7 h8
  all_goals first
    | (left; rfl)
    | (right
       exact start_irrigation_ok now { s with lastSoilBeforeIrrigation := s.soilPercent } h5
         (by simpa using h4) (by simpa [PUMP_REST_PERIOD] using h7) h6)

theorem autoControlMisting_cases (now : Nat) (s : DeviceState) :
    autoControlMisting now s = s ∨
    autoControlMisting now s =
      { s with lastHumidityBeforeMisting := s.currentHumidity, currentPumpMode := "misting",
               isPumpRunning := true, pumpStartTime := now, pumpPin2 := true } := by
  unfold autoControlMisting
  split_ifs with h1 h2 h3 h4 h5 h6 h7 h8
  all_goals first
    | (left; rfl)
    | (right
       exact start_misting_ok now { s with lastHumidityBeforeMisting := s.currentHumidity } h5
         (by simpa using h4) (by simpa [PUMP_REST_PERIOD] using h7) h6)

/-- C20. Whenever `autoControlIrrigation` passes its own checks (auto mode, target soil,
soil channel valid, pump idle, water sufficient, no extended cooldown, rest period over,
soil below the minimum) and calls `controlPump("irrigation", "start")` at the same counter
reading, all four start guards pass and the pump starts; the same holds for
`autoControlMisting` with target humidity. Consequently every call of either function
either leaves the state unchanged or ends with the pump running in the corresponding mode
with the baseline set to the current value: the baseline is written only in calls that
end with the pump running. -/
theorem auto_path_agrees_with_start_guards (now : Nat) (s : DeviceState) :
    ((s.currentMode = "auto" ∧ s.pumpMode = "soil" ∧ s.analog_soil_sensor_is_connected = true ∧
        s.isPumpRunning = false ∧ ¬ s.currentWaterPercent < s.waterLevelLowThreshold ∧
        ¬ now < s.extendedCooldownUntil ∧ ¬ sub32 now s.lastPumpStopTime < 10000 ∧
        s.soilPercent.ltInt s.plantMinSoilMoisture = true) →
      (controlPumpTrace "irrigation" "start" now
        { s with lastSoilBeforeIrrigation := s.soilPercent }).1 = .started ∧
      autoControlIrrigation now s =
        { s with lastSoilBeforeIrrigation := s.soilPercent, currentPumpMode := "irrigation",
                 isPumpRunning := true, pumpStartTime := now, pumpPin1 := true }) ∧
    ((s.currentMode = "auto" ∧ s.pumpMode = "humidity" ∧ s.humiditySensorConnected = true ∧
        s.isPumpRunning = false ∧ ¬ s.currentWaterPercent < s.waterLevelLowThreshold ∧
        ¬ now < s.extendedCooldownUntil ∧ ¬ sub32 now s.lastPumpStopTime < 10000 ∧
        s.currentHumidity.ltInt s.plantMinHumidity = true) →
      (controlPumpTrace "misting" "start" now
        { s with lastHumidityBeforeMisting := s.currentHumidity }).1 = .started ∧
      autoControlMisting now s =
        { s with lastHumidityBeforeMisting := s.currentHumidity, currentPumpMode := "misting",
                 isPumpRunning := true, pumpStartTime := now, pumpPin2 := true }) ∧
    (autoControlIrrigation now s = s ∨
      ((autoControlIrrigation now s).isPumpRunning = true ∧
       (autoControlIrrigation now s).currentPumpMode = "irrigation" ∧
       (autoControlIrrigation now s).lastSoilBeforeIrrigation = s.soilPercent)) ∧
    (autoControlMisting now s = s ∨
      ((autoControlMisting now s).isPumpRunning = true ∧
       (autoControlMisting now s).currentPumpMode = "misting" ∧
       (autoControlMisting now s).lastHumidityBeforeMisting = s.currentHumidity)) := by
  refine ⟨?_, ?_, ?_, ?_⟩
  · rintro ⟨hmode, hsel, hvalid, hidle, hwater, hcool, hrest, hlow⟩
    constructor
    · exact (start_guard_iff "irrigation" now
        { s with lastSoilBeforeIrrigation := s.soilPercent }).mpr ⟨hwater, hidle, hrest, hcool⟩
    · rw [autoControlIrrigation_of_guards now s hmode hsel hvalid hidle hwater hrest hcool,
        if_pos hlow]
  · rintro ⟨hmode, hsel, hvalid, hidle, hwater, hcool, hrest, hlow⟩
    constructor
    · exact (start_guard_iff "misting" now
        { s with lastHumidityBeforeMisting := s.currentHumidity }).mpr ⟨hwater, hidle, hrest, hcool⟩
    · rw [autoControlMisting_of_guards now s hmode hsel hvalid hidle hwater hrest hcool,
        if_pos hlow]
  · rcases autoControlIrrigation_cases now s with h | h
    · left; exact h
    · right; rw [h]; exact ⟨rfl, rfl, rfl⟩
  · rcases autoControlMisting_cases now s with h | h
    · left; exact h
    · right; rw [h]; exact ⟨rfl, rfl, rfl⟩

theorem auto_path_agrees_with_start_guards_witness :
    (controlPumpTrace "irrigation" "start" 20000
      { exDry with lastSoilBeforeIrrigation := exDry.soilPercent }).1 = .started ∧
    autoControlIrrigation 20000 exDry =
      { exDry with lastSoilBeforeIrrigation := some 25, currentPumpMode := "irrigation",
                   isPumpRunning := true, pumpStartTime := 20000, pumpPin1 := true } ∧
    (autoControlMisting 20000 exDry = exDry ∨
      ((autoControlMisting 20000 exDry).isPumpRunning = true ∧
       (autoControlMisting 20000 exDry).currentPumpMode = "misting" ∧
       (autoControlMisting 20000 exDry).lastHumidityBeforeMisting = exDry.currentHumidity)) :=
  have h := auto_path_agrees_with_start_guards 20000 exDry
  have hg := h.1 ⟨rfl, rfl, rfl, rfl, by decide, by decide, by decide,
    by simp [exDry, boot, Flt.ltInt]; norm_num⟩
  ⟨hg.1, hg.2, h.2.2.2⟩

end LeafyShield
